import Mathlib

/-!
Verification of the gesture-recognition / WebRTC video-call repository.

The development shallowly embeds the two core modules:

* `src/src/hooks/useGestures.ts` — landmark normalization, motion tracking,
  the priority-ordered gesture classifier, the temporal (majority-vote)
  smoother, and the gesture-callback registry;
* `src/src/hooks/useWebRTC.ts` — the per-session negotiation state
  (role / room-ready / offer-sent flags, pending offer slot, pending ICE
  candidate queue) and its signaling handlers.

Conventions of the embedding:

* JavaScript numbers are modelled as real numbers (`ℝ`); `Math.sqrt` is
  `Real.sqrt`.
* A JavaScript property access on a possibly-`undefined` array element is
  modelled in the `Except Unit` monad: `.error ()` stands for a thrown
  `TypeError`.  Functions that cannot throw are plain functions.
* A plain-object `Record<string, number>` used only with non-numeric keys
  (the gesture-label counts) is modelled as an insertion-ordered association
  list, which matches JavaScript's enumeration order for such keys.
* Asynchronous browser calls that the code awaits (`createOffer`,
  `setRemoteDescription`, `addIceCandidate`, `getUserMedia`) are modelled as
  synchronous state updates that succeed; the socket is modelled as always
  connected.  The sent offers/answers are recorded in trace fields so that
  counting properties can be stated.
-/

open Classical

/-! ## Temporal smoother (useGestures.ts, processHands lines 219-258)

The smoother works on plain gesture-label strings and natural-number counts,
so this part of the embedding is fully computable. -/

/-- JavaScript `history.slice(-n)` (for `n > 0`): the last `n` entries. -/
def lastN (n : ℕ) (l : List α) : List α := l.drop (l.length - n)

/-- One step of building the `counts` record: `counts[g] = (counts[g] || 0) + 1`
on an insertion-ordered association list (a fresh key is appended at the end,
which is JavaScript's enumeration order for non-numeric keys). -/
def tally : List (String × ℕ) → String → List (String × ℕ)
  | [], g => [(g, 1)]
  | (k, v) :: rest, g => if k = g then (k, v + 1) :: rest else (k, v) :: tally rest g

/-- The `counts` record of processHands lines 230-236: occurrences of each
gesture in the voting window, ignoring UNKNOWN, in first-seen order. -/
def gestureCounts (recent : List String) : List (String × ℕ) :=
  recent.foldl (fun acc g => if g = "UNKNOWN" then acc else tally acc g) []

/-- Lines 238-246: fold over `Object.entries(counts)` keeping the entry with
the strictly highest count; `bestGesture` starts as the raw gesture with
count 0. -/
def pickStep (best e : String × ℕ) : String × ℕ := if best.2 < e.2 then e else best

def bestEntry (rawGesture : String) (counts : List (String × ℕ)) : String × ℕ :=
  counts.foldl pickStep (rawGesture, 0)

/-- Lines 227-251: the smoothed (stable) label.  `history` is the gesture
history after the current raw gesture has been pushed (and the oldest entry
shifted off if the capacity 15 was exceeded); `previous` is the previous
stable gesture. -/
def smoothLabel (rawGesture : String) (history : List String) (previous : String) : String :=
  let recent := lastN 9 history
  let counts := gestureCounts recent
  let best := bestEntry rawGesture counts
  if 3 ≤ best.2 then best.1 else previous

/-- Helper used to state properties of the association list: the count
recorded for a key (0 when absent), i.e. `counts[g] || 0`. -/
def lookupCount (g : String) : List (String × ℕ) → ℕ
  | [] => 0
  | (k, v) :: rest => if k = g then v else lookupCount g rest

/-! ## WebRTC session model (useWebRTC.ts)

The session state gathers the refs of the hook: `pcRef`, `isInitiatorRef`,
`roomReadyRef`, `offerSentRef`, `localStreamRef` (as a Boolean "stream
acquired"), `pendingOfferRef` and `pendingCandidatesRef`.  SDP blobs and ICE
candidates are modelled as strings.  `sentOffers` / `sentAnswers` record the
`socket.emit` calls so that "at most one offer is sent" can be stated. -/

/-- The browser's RTCPeerConnection signaling states that the hook inspects. -/
inductive SigState where
  | stable
  | haveLocalOffer
  | haveRemoteOffer
  | closed
deriving DecidableEq

/-- The observable state of the peer connection object. -/
structure PeerConn where
  signalingState : SigState
  localDesc : Option String
  remoteDesc : Option String
  applied : List String
deriving DecidableEq

/-- The per-session state of useWebRTC (its refs plus the emit trace). -/
structure Session where
  pc : Option PeerConn
  isInitiator : Bool
  roomReady : Bool
  hasLocalStream : Bool
  offerSent : Bool
  pendingOffer : Option String
  pendingCandidates : List String
  sentOffers : List String
  sentAnswers : List String
deriving DecidableEq

/-- The refs' initial values (lines 33-41). -/
def initSession : Session :=
  { pc := none, isInitiator := false, roomReady := false, hasLocalStream := false
    offerSent := false, pendingOffer := none, pendingCandidates := []
    sentOffers := [], sentAnswers := [] }

/-- createPeerConnection (lines 72-119): closes any existing connection and
installs a fresh one in the `stable` state. -/
def createPeerConnection (s : Session) : Session :=
  { s with pc := some { signalingState := .stable, localDesc := none
                        remoteDesc := none, applied := [] } }

/-- createAndSendOffer (lines 215-233): ensure a peer connection exists,
create an offer, set it as the local description and emit it. -/
def createAndSendOffer (s : Session) : Session :=
  let s := if s.pc = none then createPeerConnection s else s
  match s.pc with
  | none => s
  | some pc =>
      { s with
        pc := some { pc with localDesc := some "offer", signalingState := .haveLocalOffer }
        sentOffers := s.sentOffers ++ ["offer"] }

/-- maybeStartCall (lines 237-244): the one-shot offer guard.  Only the
initiator, only once the room is ready and local media exists, and only if no
offer was sent before; the flag is set before the (async) send is started. -/
def maybeStartCall (s : Session) : Session :=
  if !s.isInitiator then s
  else if !s.roomReady then s
  else if !s.hasLocalStream then s
  else if s.offerSent then s
  else createAndSendOffer { s with offerSent := true }

/-- acceptOffer (lines 124-146): ensure a peer connection exists, set the
remote description, create an answer, set it locally and emit it. -/
def acceptOffer (s : Session) (offer : String) : Session :=
  let s := if s.pc = none then createPeerConnection s else s
  match s.pc with
  | none => s
  | some pc =>
      { s with
        pc := some { pc with remoteDesc := some offer, localDesc := some "answer"
                             signalingState := .stable }
        sentAnswers := s.sentAnswers ++ ["answer"] }

/-- handleOffer (lines 148-163): defer the offer while local media is not
ready, otherwise accept it. -/
def handleOffer (s : Session) (offer : String) : Session :=
  if !s.hasLocalStream then { s with pendingOffer := some offer }
  else acceptOffer s offer

/-- handleAnswer (lines 165-182): ignore the answer unless a peer connection
exists and its signaling state is have-local-offer; otherwise apply it as the
remote description. -/
def handleAnswer (s : Session) (answer : String) : Session :=
  match s.pc with
  | none => s
  | some pc =>
      if pc.signalingState ≠ .haveLocalOffer then s
      else { s with pc := some { pc with remoteDesc := some answer
                                         signalingState := .stable } }

/-- handleCandidate (lines 184-197): buffer the candidate while no peer
connection exists or it is closed, otherwise apply it. -/
def handleCandidate (s : Session) (c : String) : Session :=
  match s.pc with
  | none => { s with pendingCandidates := s.pendingCandidates ++ [c] }
  | some pc =>
      if pc.signalingState = .closed then
        { s with pendingCandidates := s.pendingCandidates ++ [c] }
      else
        { s with pc := some { pc with applied := pc.applied ++ [c] } }

/-- The while-loop of processPendingCandidates: shift the queue head and apply
it until the queue is empty. -/
def drainLoop (pc : PeerConn) : List String → PeerConn
  | [] => pc
  | c :: rest => drainLoop { pc with applied := pc.applied ++ [c] } rest

/-- processPendingCandidates (lines 199-212): no-op without a viable peer
connection; otherwise drain the FIFO queue into the connection. -/
def processPendingCandidates (s : Session) : Session :=
  match s.pc with
  | none => s
  | some pc =>
      if pc.signalingState = .closed then s
      else { s with pc := some (drainLoop pc s.pendingCandidates), pendingCandidates := [] }

/-- startLocalStream's success path (lines 248-305): record the stream,
process a deferred offer if one exists, then try to start the call. -/
def startLocalStreamSuccess (s : Session) : Session :=
  let s := { s with hasLocalStream := true }
  let s :=
    match s.pendingOffer with
    | some offer => acceptOffer { s with pendingOffer := none } offer
    | none => s
  maybeStartCall s

/-- The signaling-side events a session reacts to (socket handlers of
lines 324-356 plus the candidate-drain effect of lines 372-374). -/
inductive SigEv where
  | joinAck (caller : Bool)
  | roomReady
  | mediaReady
  | offerRecv (sdp : String)
  | answerRecv (sdp : String)
  | candRecv (c : String)
  | drainPending
deriving DecidableEq

/-- Dispatch one event to its handler, exactly as the socket handlers do. -/
def sessionStep (s : Session) : SigEv → Session
  | .joinAck caller => { s with isInitiator := caller }
  | .roomReady => maybeStartCall { s with roomReady := true }
  | .mediaReady => startLocalStreamSuccess s
  | .offerRecv o => handleOffer s o
  | .answerRecv a => handleAnswer s a
  | .candRecv c => handleCandidate s c
  | .drainPending => processPendingCandidates s

/-- A session's reaction to a whole event sequence. -/
def runSession (s : Session) (evs : List SigEv) : Session := evs.foldl sessionStep s

/-! ## Gesture-callback registry (useGestures.ts lines 267-275 and 808-813)

Callbacks are JavaScript function references compared with `!==`; the
registry is modelled as a list of reference identities (naturals), with the
behaviour of each reference given separately as a function that may throw. -/

/-- onGestureDetected's registration effect (line 809): push the callback. -/
def registerCallback (registry : List ℕ) (cb : ℕ) : List ℕ := registry ++ [cb]

/-- The deregistration handle returned by onGestureDetected (lines 810-812):
filter the callback out of the current registry. -/
def removeCallback (cb : ℕ) (registry : List ℕ) : List ℕ :=
  registry.filter (fun c => c ≠ cb)

/-- A stabilized gesture event as delivered to callbacks (lines 267-268). -/
structure GestureEvent where
  gesture : String
  text : String
  confidence : ℝ
  timestamp : ℝ

/-- The notification loop (lines 269-275): each callback is invoked inside its
own try/catch, so the recursion continues no matter what the invocation
returned.  The result records each invocation and its outcome. -/
def notifyAll (behavior : ℕ → GestureEvent → Except Unit Unit) :
    List ℕ → GestureEvent → List (ℕ × Except Unit Unit)
  | [], _ => []
  | c :: rest, ev => (c, behavior c ev) :: notifyAll behavior rest ev

/-! ## Landmarks and throwing accesses (useGestures.ts)

A MediaPipe landmark has coordinates x, y, z.  `getLm l i` models reading a
property of `landmarks[i]`: out of range, `landmarks[i]` is `undefined` and
the property read throws. -/

/-- One hand landmark (x, y in image space, z depth relative to the wrist). -/
structure Landmark where
  x : ℝ
  y : ℝ
  z : ℝ

/-- A per-joint velocity sample `{x, y}` (calculateVelocities entries). -/
structure Vel2 where
  x : ℝ
  y : ℝ

/-- Property access on `landmarks[i]`: `.error ()` is the TypeError thrown
when the element is `undefined`. -/
def getLm (l : List Landmark) (i : ℕ) : Except Unit Landmark :=
  match l[i]? with
  | some a => .ok a
  | none => .error ()

noncomputable section

/-- distance2D (lines 319-326): planar Euclidean distance. -/
def distance2D (a b : Landmark) : ℝ :=
  Real.sqrt ((a.x - b.x) * (a.x - b.x) + (a.y - b.y) * (a.y - b.y))

/-- Math.atan2 with JavaScript's conventions (atan2 0 0 = 0). -/
def atan2 (y x : ℝ) : ℝ :=
  if 0 < x then Real.arctan (y / x)
  else if x < 0 ∧ 0 ≤ y then Real.arctan (y / x) + Real.pi
  else if x < 0 ∧ y < 0 then Real.arctan (y / x) - Real.pi
  else if x = 0 ∧ 0 < y then Real.pi / 2
  else if x = 0 ∧ y < 0 then -(Real.pi / 2)
  else 0

/-- isFingerExtended (lines 329-337): tip.y < pip.y - 0.02. -/
def isFingerExtended (l : List Landmark) (tipIndex pipIndex : ℕ) : Except Unit Bool := do
  let tip ← getLm l tipIndex
  let pip ← getLm l pipIndex
  pure (decide (tip.y < pip.y - 0.02))

/-- isFingerCurled (lines 340-348): tip.y > pip.y - 0.005. -/
def isFingerCurled (l : List Landmark) (tipIndex pipIndex : ℕ) : Except Unit Bool := do
  let tip ← getLm l tipIndex
  let pip ← getLm l pipIndex
  pure (decide (pip.y - 0.005 < tip.y))

/-- isThumbUp (lines 350-359). -/
def isThumbUp (l : List Landmark) : Except Unit Bool := do
  let thumbExtended ← isFingerExtended l 4 3
  let indexCurled ← isFingerCurled l 8 6
  let middleCurled ← isFingerCurled l 12 10
  let ringCurled ← isFingerCurled l 16 14
  let pinkyCurled ← isFingerCurled l 20 18
  pure (thumbExtended && indexCurled && middleCurled && ringCurled && pinkyCurled)

/-- isThumbDown (lines 361-374). -/
def isThumbDown (l : List Landmark) : Except Unit Bool := do
  let tip ← getLm l 4
  let pip ← getLm l 3
  let wrist ← getLm l 0
  let thumbDown := decide (pip.y + 0.02 < tip.y) && decide (wrist.y + 0.02 < tip.y)
  let indexCurled ← isFingerCurled l 8 6
  let middleCurled ← isFingerCurled l 12 10
  let ringCurled ← isFingerCurled l 16 14
  let pinkyCurled ← isFingerCurled l 20 18
  pure (thumbDown && indexCurled && middleCurled && ringCurled && pinkyCurled)

/-- isPeaceSign (lines 376-384). -/
def isPeaceSign (l : List Landmark) : Except Unit Bool := do
  let indexExtended ← isFingerExtended l 8 6
  let middleExtended ← isFingerExtended l 12 10
  let ringCurled ← isFingerCurled l 16 14
  let pinkyCurled ← isFingerCurled l 20 18
  pure (indexExtended && middleExtended && ringCurled && pinkyCurled)

/-- isVictoryAlt (lines 386-392). -/
def isVictoryAlt (l : List Landmark) : Except Unit Bool := do
  let peace ← isPeaceSign l
  if !peace then return false
  let indexTip ← getLm l 8
  let wrist ← getLm l 0
  pure (decide (indexTip.y < wrist.y - 0.05))

/-- isOpenHand (lines 394-402). -/
def isOpenHand (l : List Landmark) : Except Unit Bool := do
  let indexExtended ← isFingerExtended l 8 6
  let middleExtended ← isFingerExtended l 12 10
  let ringExtended ← isFingerExtended l 16 14
  let pinkyExtended ← isFingerExtended l 20 18
  pure (indexExtended && middleExtended && ringExtended && pinkyExtended)

/-- isFist (lines 404-413). -/
def isFist (l : List Landmark) : Except Unit Bool := do
  let thumbCurled ← isFingerCurled l 4 3
  let indexCurled ← isFingerCurled l 8 6
  let middleCurled ← isFingerCurled l 12 10
  let ringCurled ← isFingerCurled l 16 14
  let pinkyCurled ← isFingerCurled l 20 18
  pure (thumbCurled && indexCurled && middleCurled && ringCurled && pinkyCurled)

/-- isRaisedFist (lines 415-421). -/
def isRaisedFist (l : List Landmark) : Except Unit Bool := do
  let fist ← isFist l
  if !fist then return false
  let wrist ← getLm l 0
  let indexMcp ← getLm l 5
  pure (decide (indexMcp.y < wrist.y - 0.02))

/-- isOkSign (lines 423-435). -/
def isOkSign (l : List Landmark) : Except Unit Bool := do
  let thumbTip ← getLm l 4
  let indexTip ← getLm l 8
  let close := decide (distance2D thumbTip indexTip < 0.07)
  let middleExtended ← isFingerExtended l 12 10
  let ringExtended ← isFingerExtended l 16 14
  let pinkyExtended ← isFingerExtended l 20 18
  pure (close && middleExtended && ringExtended && pinkyExtended)

/-- isPinch (lines 437-449). -/
def isPinch (l : List Landmark) : Except Unit Bool := do
  let thumbTip ← getLm l 4
  let indexTip ← getLm l 8
  let veryClose := decide (distance2D thumbTip indexTip < 0.04)
  let middleCurled ← isFingerCurled l 12 10
  let ringCurled ← isFingerCurled l 16 14
  let pinkyCurled ← isFingerCurled l 20 18
  pure (veryClose && middleCurled && ringCurled && pinkyCurled)

/-- isRockSign (lines 451-475); the thumb check short-circuits as `||` does. -/
def isRockSign (l : List Landmark) : Except Unit Bool := do
  let indexExtended ← isFingerExtended l 8 6
  let pinkyExtended ← isFingerExtended l 20 18
  let middleCurled ← isFingerCurled l 12 10
  let ringCurled ← isFingerCurled l 16 14
  let thumbExtended ← do
    let e ← isFingerExtended l 4 3
    if e then pure true
    else do
      let a ← getLm l 4
      let b ← getLm l 3
      pure (decide (a.y < b.y + 0.05))
  let indexTip ← getLm l 8
  let pinkyTip ← getLm l 20
  let heightDiff := |indexTip.y - pinkyTip.y|
  let l5 ← getLm l 5
  let l17 ← getLm l 17
  pure (indexExtended && pinkyExtended && middleCurled && ringCurled && thumbExtended
    && decide (heightDiff < 0.15)
    && decide (distance2D l5 l17 * 0.8 < distance2D indexTip pinkyTip))

/-- isCallMe (lines 477-503). -/
def isCallMe (l : List Landmark) : Except Unit Bool := do
  let thumbExtended ← isFingerExtended l 4 3
  let pinkyExtended ← isFingerExtended l 20 18
  let indexCurled ← isFingerCurled l 8 6
  let middleCurled ← isFingerCurled l 12 10
  let ringCurled ← isFingerCurled l 16 14
  let indexMCP ← getLm l 5
  let pinkyMCP ← getLm l 17
  let handAngle := atan2 (pinkyMCP.y - indexMCP.y) (pinkyMCP.x - indexMCP.x)
  let isVertical := decide (Real.pi / 3 < |handAngle|) && decide (|handAngle| < 2 * Real.pi / 3)
  pure (thumbExtended && pinkyExtended && indexCurled && middleCurled && ringCurled && isVertical)

/-- isClaw (lines 505-520). -/
def isClaw (l : List Landmark) : Except Unit Bool := do
  let wrist ← getLm l 0
  let indexTip ← getLm l 8
  let middleTip ← getLm l 12
  let ringTip ← getLm l 16
  let pinkyTip ← getLm l 20
  let closeToWrist := decide (wrist.y - 0.02 < indexTip.y) && decide (wrist.y - 0.02 < middleTip.y)
    && decide (wrist.y - 0.02 < ringTip.y) && decide (wrist.y - 0.02 < pinkyTip.y)
  let fist ← isFist l
  pure (closeToWrist && !fist)

/-- isPointUp (lines 522-533). -/
def isPointUp (l : List Landmark) : Except Unit Bool := do
  let indexExtended ← isFingerExtended l 8 6
  let middleCurled ← isFingerCurled l 12 10
  let ringCurled ← isFingerCurled l 16 14
  let pinkyCurled ← isFingerCurled l 20 18
  if !indexExtended || !middleCurled || !ringCurled || !pinkyCurled then return false
  let indexTip ← getLm l 8
  let wrist ← getLm l 0
  pure (decide (indexTip.y < wrist.y - 0.02))

/-- isPointDown (lines 535-546). -/
def isPointDown (l : List Landmark) : Except Unit Bool := do
  let indexExtended ← isFingerExtended l 8 6
  let middleCurled ← isFingerCurled l 12 10
  let ringCurled ← isFingerCurled l 16 14
  let pinkyCurled ← isFingerCurled l 20 18
  if !indexExtended || !middleCurled || !ringCurled || !pinkyCurled then return false
  let indexTip ← getLm l 8
  let wrist ← getLm l 0
  pure (decide (wrist.y + 0.02 < indexTip.y))

/-- isPointRight (lines 548-559). -/
def isPointRight (l : List Landmark) : Except Unit Bool := do
  let indexExtended ← isFingerExtended l 8 6
  let middleCurled ← isFingerCurled l 12 10
  let ringCurled ← isFingerCurled l 16 14
  let pinkyCurled ← isFingerCurled l 20 18
  if !indexExtended || !middleCurled || !ringCurled || !pinkyCurled then return false
  let indexTip ← getLm l 8
  let wrist ← getLm l 0
  pure (decide (wrist.x + 0.05 < indexTip.x))

/-- isPointLeft (lines 561-572). -/
def isPointLeft (l : List Landmark) : Except Unit Bool := do
  let indexExtended ← isFingerExtended l 8 6
  let middleCurled ← isFingerCurled l 12 10
  let ringCurled ← isFingerCurled l 16 14
  let pinkyCurled ← isFingerCurled l 20 18
  if !indexExtended || !middleCurled || !ringCurled || !pinkyCurled then return false
  let indexTip ← getLm l 8
  let wrist ← getLm l 0
  pure (decide (indexTip.x < wrist.x - 0.05))

/-- isPalmUp (lines 628-639). -/
def isPalmUp (l : List Landmark) : Except Unit Bool := do
  let openHand ← isOpenHand l
  if !openHand then return false
  let wrist ← getLm l 0
  let a ← getLm l 5
  let b ← getLm l 9
  let c ← getLm l 13
  let d ← getLm l 17
  let avgZ := (a.z + b.z + c.z + d.z) / 4
  pure (decide (avgZ < wrist.z))

/-- isPalmDown (lines 641-651). -/
def isPalmDown (l : List Landmark) : Except Unit Bool := do
  let openHand ← isOpenHand l
  if !openHand then return false
  let wrist ← getLm l 0
  let a ← getLm l 5
  let b ← getLm l 9
  let c ← getLm l 13
  let d ← getLm l 17
  let avgZ := (a.z + b.z + c.z + d.z) / 4
  pure (decide (wrist.z < avgZ))

/-- isThreeFingers (lines 693-701). -/
def isThreeFingers (l : List Landmark) : Except Unit Bool := do
  let indexExtended ← isFingerExtended l 8 6
  let middleExtended ← isFingerExtended l 12 10
  let ringExtended ← isFingerExtended l 16 14
  let pinkyCurled ← isFingerCurled l 20 18
  pure (indexExtended && middleExtended && ringExtended && pinkyCurled)

/-- isFourFingers (lines 703-712). -/
def isFourFingers (l : List Landmark) : Except Unit Bool := do
  let indexExtended ← isFingerExtended l 8 6
  let middleExtended ← isFingerExtended l 12 10
  let ringExtended ← isFingerExtended l 16 14
  let pinkyExtended ← isFingerExtended l 20 18
  let thumbCurled ← isFingerCurled l 4 3
  pure (indexExtended && middleExtended && ringExtended && pinkyExtended && thumbCurled)

/-- isFingerHeart (lines 714-727). -/
def isFingerHeart (l : List Landmark) : Except Unit Bool := do
  let thumbTip ← getLm l 4
  let indexTip ← getLm l 8
  let close := decide (distance2D thumbTip indexTip < 0.06)
  let middleCurled ← isFingerCurled l 12 10
  let ringCurled ← isFingerCurled l 16 14
  let pinkyCurled ← isFingerCurled l 20 18
  pure (close && !middleCurled && !ringCurled && !pinkyCurled)

/-- isCrossFingers (lines 729-741). -/
def isCrossFingers (l : List Landmark) : Except Unit Bool := do
  let indexExtended ← isFingerExtended l 8 6
  let middleExtended ← isFingerExtended l 12 10
  let ringCurled ← isFingerCurled l 16 14
  let pinkyCurled ← isFingerCurled l 20 18
  if !indexExtended || !middleExtended || !ringCurled || !pinkyCurled then return false
  let indexTip ← getLm l 8
  let middleTip ← getLm l 12
  pure (decide (distance2D indexTip middleTip < 0.05))

/-- isHandshakeLike (lines 743-751). -/
def isHandshakeLike (l : List Landmark) : Except Unit Bool := do
  let openHand ← isOpenHand l
  if !openHand then return false
  let indexTip ← getLm l 8
  let pinkyTip ← getLm l 20
  let dy := |indexTip.y - pinkyTip.y|
  let dx := |indexTip.x - pinkyTip.x|
  pure (decide (dy + 0.05 < dx))

/-- isPrayLike (lines 753-758). -/
def isPrayLike (l : List Landmark) : Except Unit Bool := do
  let openHand ← isOpenHand l
  if !openHand then return false
  let wrist ← getLm l 0
  pure (decide (0.3 < wrist.x) && decide (wrist.x < 0.7))

end

/-! ## Motion tracking and motion-gated predicates (useGestures.ts) -/

/-- The horizontal/vertical motion directions tracked by the wave detector. -/
inductive Dir where
  | left
  | right
  | up
  | down
deriving DecidableEq

/-- The motion-tracking state (motionStateRef, lines 35-50). -/
structure MotionState where
  prevLandmarks : Option (List Landmark)
  prevTimestamp : Option ℝ
  velocities : List (List Vel2)
  directions : List Dir
  motionHistory : List (ℝ × List Landmark)

/-- motionStateRef's initial value (lines 44-50). -/
def initMotion : MotionState :=
  { prevLandmarks := none, prevTimestamp := none, velocities := []
    directions := [], motionHistory := [] }

/-- The mutable loop state of isWave's motion analysis (lines 585-588). -/
structure WaveAcc where
  directionChanges : ℕ
  lastDirection : Option Dir
  motionAmplitude : ℝ
  significantMotionFrames : ℕ

noncomputable section

/-- One iteration of isWave's loop over the velocity buffer (lines 591-615):
read the wrist velocity, skip small jitters, count significant frames, and for
horizontally dominated motion accumulate amplitude and direction reversals. -/
def waveStep (acc : WaveAcc) (frame : List Vel2) : WaveAcc :=
  match frame[0]? with
  | none => acc
  | some vel =>
      let speed := Real.sqrt (vel.x * vel.x + vel.y * vel.y)
      if speed < 0.1 then acc
      else
        let acc := { acc with significantMotionFrames := acc.significantMotionFrames + 1 }
        let isHorizontal := decide (|vel.y| * (1.5 : ℝ) < |vel.x|)
        let direction : Dir :=
          if isHorizontal then (if decide (0 < vel.x) then .right else .left)
          else (if decide (0 < vel.y) then .down else .up)
        if isHorizontal then
          { acc with
            motionAmplitude := acc.motionAmplitude + |vel.x|
            directionChanges := acc.directionChanges +
              (match acc.lastDirection with
               | some d => if d ≠ direction then 1 else 0
               | none => 0)
            lastDirection := some direction }
        else acc

/-- isWave (lines 574-626): open hand, at least 10 buffered velocity frames,
then at least 3 horizontal direction changes, accumulated horizontal speed
above 0.3 and at least 5 significant-motion frames. -/
def isWave (l : List Landmark) (ms : MotionState) : Except Unit Bool := do
  let openHand ← isOpenHand l
  if !openHand then return false
  if ms.velocities.length < 10 then return false
  let acc := (ms.velocities.drop 1).foldl waveStep
    { directionChanges := 0, lastDirection := none
      motionAmplitude := 0, significantMotionFrames := 0 }
  pure (decide (3 ≤ acc.directionChanges) && decide ((0.3 : ℝ) < acc.motionAmplitude)
    && decide (5 ≤ acc.significantMotionFrames))

/-- The mutable loop state of isStop's speed scan (lines 666-668). -/
structure StopAcc where
  totalSpeed : ℝ
  movingFrames : ℕ
  wasMoving : Bool

/-- One iteration of isStop's loop over the recent velocity frames
(lines 670-682). -/
def stopStep (acc : StopAcc) (frame : List Vel2) : StopAcc :=
  match frame[0]? with
  | none => acc
  | some vel =>
      let speed := Real.sqrt (vel.x * vel.x + vel.y * vel.y)
      let acc := { acc with totalSpeed := acc.totalSpeed + speed }
      if 0.15 < speed then
        { acc with wasMoving := true, movingFrames := acc.movingFrames + 1 }
      else acc

/-- isStop (lines 653-691): open camera-facing palm, at least 5 buffered
velocity frames, previously moving but now nearly at rest. -/
def isStop (l : List Landmark) (ms : MotionState) : Except Unit Bool := do
  let openHand ← isOpenHand l
  if !openHand then return false
  let palmDown ← isPalmDown l
  let facing ← if palmDown then pure true else isPalmUp l
  if !facing then return false
  if ms.velocities.length < 5 then return false
  let recentFrames := lastN 10 ms.velocities
  let acc := recentFrames.foldl stopStep { totalSpeed := 0, movingFrames := 0, wasMoving := false }
  let avgSpeed := acc.totalSpeed / (recentFrames.length : ℝ)
  pure (acc.wasMoving && decide (avgSpeed < 0.05) && decide (3 ≤ acc.movingFrames))

/-- recognizeGesture (lines 279-314): the fixed if-chain, first match wins. -/
def recognizeGesture (l : List Landmark) (ms : MotionState) : Except Unit String :=
  isWave l ms >>= fun b =>
  if b then pure "WAVE" else
  isStop l ms >>= fun b =>
  if b then pure "STOP" else
  isCallMe l >>= fun b =>
  if b then pure "CALL_ME" else
  isRockSign l >>= fun b =>
  if b then pure "ROCK_SIGN" else
  isThumbUp l >>= fun b =>
  if b then pure "THUMB_UP" else
  isThumbDown l >>= fun b =>
  if b then pure "THUMB_DOWN" else
  isFist l >>= fun b =>
  if b then pure "FIST" else
  isRaisedFist l >>= fun b =>
  if b then pure "RAISED_FIST" else
  isOkSign l >>= fun b =>
  if b then pure "OK_SIGN" else
  isPinch l >>= fun b =>
  if b then pure "PINCH" else
  isPeaceSign l >>= fun b =>
  if b then pure "PEACE_SIGN" else
  isVictoryAlt l >>= fun b =>
  if b then pure "VICTORY_ALT" else
  isClaw l >>= fun b =>
  if b then pure "CLAW" else
  isPointUp l >>= fun b =>
  if b then pure "POINT_UP" else
  isPointRight l >>= fun b =>
  if b then pure "POINT_RIGHT" else
  isPointLeft l >>= fun b =>
  if b then pure "POINT_LEFT" else
  isPointDown l >>= fun b =>
  if b then pure "POINT_DOWN" else
  isPalmUp l >>= fun b =>
  if b then pure "PALM_UP" else
  isPalmDown l >>= fun b =>
  if b then pure "PALM_DOWN" else
  isThreeFingers l >>= fun b =>
  if b then pure "THREE_FINGERS" else
  isFourFingers l >>= fun b =>
  if b then pure "FOUR_FINGERS" else
  isFingerHeart l >>= fun b =>
  if b then pure "FINGER_HEART" else
  isCrossFingers l >>= fun b =>
  if b then pure "CROSS_FINGERS" else
  isHandshakeLike l >>= fun b =>
  if b then pure "HANDSHAKE_START" else
  isPrayLike l >>= fun b =>
  if b then pure "PRAY" else
  isOpenHand l >>= fun b =>
  if b then pure "OPEN_HAND" else
  pure "UNKNOWN"

/-- The classifier's priority list, spelled out as an ordered label/predicate
table (the spec's reading of lines 279-314). -/
def gesturePriority : List (String × (List Landmark → MotionState → Except Unit Bool)) :=
  [("WAVE", isWave), ("STOP", isStop),
   ("CALL_ME", fun l _ => isCallMe l), ("ROCK_SIGN", fun l _ => isRockSign l),
   ("THUMB_UP", fun l _ => isThumbUp l), ("THUMB_DOWN", fun l _ => isThumbDown l),
   ("FIST", fun l _ => isFist l), ("RAISED_FIST", fun l _ => isRaisedFist l),
   ("OK_SIGN", fun l _ => isOkSign l), ("PINCH", fun l _ => isPinch l),
   ("PEACE_SIGN", fun l _ => isPeaceSign l), ("VICTORY_ALT", fun l _ => isVictoryAlt l),
   ("CLAW", fun l _ => isClaw l), ("POINT_UP", fun l _ => isPointUp l),
   ("POINT_RIGHT", fun l _ => isPointRight l), ("POINT_LEFT", fun l _ => isPointLeft l),
   ("POINT_DOWN", fun l _ => isPointDown l), ("PALM_UP", fun l _ => isPalmUp l),
   ("PALM_DOWN", fun l _ => isPalmDown l), ("THREE_FINGERS", fun l _ => isThreeFingers l),
   ("FOUR_FINGERS", fun l _ => isFourFingers l), ("FINGER_HEART", fun l _ => isFingerHeart l),
   ("CROSS_FINGERS", fun l _ => isCrossFingers l),
   ("HANDSHAKE_START", fun l _ => isHandshakeLike l), ("PRAY", fun l _ => isPrayLike l),
   ("OPEN_HAND", fun l _ => isOpenHand l)]

/-- First-true-wins evaluation of an ordered label/predicate table, with the
default label UNKNOWN. -/
def firstMatch :
    List (String × (List Landmark → MotionState → Except Unit Bool)) →
    List Landmark → MotionState → Except Unit String
  | [], _, _ => pure "UNKNOWN"
  | (name, p) :: rest, l, ms =>
      p l ms >>= fun b => if b then pure name else firstMatch rest l ms

/-- normalizeLandmarks (lines 150-162): subtract the wrist from x and y and
divide them by the index-MCP to pinky-MCP distance (`|| 1` fallback when that
distance is zero); z stays wrist-relative.  Reading `landmarks[5]` /
`landmarks[17]` inside distance2D throws on lists that are too short. -/
def normalizeLandmarks (l : List Landmark) : Except Unit (List Landmark) :=
  match l with
  | [] => .ok []
  | wrist :: _ => do
      let a ← getLm l 5
      let b ← getLm l 17
      let d := distance2D a b
      let scale := if d = 0 then 1 else d
      pure (l.map fun p => { p with x := (p.x - wrist.x) / scale, y := (p.y - wrist.y) / scale })

/-- calculateVelocities (lines 165-178): a 21-entry all-zero array on a
joint-count mismatch, otherwise the per-joint difference quotient (with no
guard on the sign or size of timeDelta). -/
def calculateVelocities (prevLandmarks currentLandmarks : List Landmark)
    (timeDelta : ℝ) : List Vel2 :=
  if prevLandmarks.length ≠ currentLandmarks.length then
    List.replicate 21 { x := 0, y := 0 }
  else
    List.zipWith (fun c p => Vel2.mk ((c.x - p.x) / timeDelta) ((c.y - p.y) / timeDelta))
      currentLandmarks prevLandmarks

/-- gestureToText's label/text table (lines 760-791). -/
def gestureTextMap : List (String × String) :=
  [("THUMB_UP", "👍 Thumbs up!"), ("PEACE_SIGN", "✌️ Peace!"),
   ("OPEN_HAND", "🖐️ Open hand"), ("UNKNOWN", "✋ Detected"),
   ("THUMB_DOWN", "👎 Thumbs down"), ("FIST", "✊ Fist"),
   ("OK_SIGN", "👌 OK!"), ("PINCH", "🤏 Pinch"),
   ("ROCK_SIGN", "🤘 Rock!"), ("CALL_ME", "🤙 Call me"),
   ("CLAW", "🦾 Claw gesture"), ("POINT_UP", "☝️ Pointing up"),
   ("POINT_RIGHT", "👉 Pointing right"), ("POINT_LEFT", "👈 Pointing left"),
   ("POINT_DOWN", "👇 Pointing down"), ("CROSS_FINGERS", "🤞 Good luck!"),
   ("HANDSHAKE_START", "🤝 Handshake"), ("PRAY", "🙏 Namaste / Pray"),
   ("RAISED_FIST", "✊ Raised fist"), ("PALM_DOWN", "🫳 Palm down"),
   ("PALM_UP", "🫴 Palm up"), ("STOP", "✋ Stop!"),
   ("WAVE", "👋 Wave"), ("FINGER_HEART", "🫶 Finger heart"),
   ("VICTORY_ALT", "✌️ Victory"), ("THREE_FINGERS", "🤟 Three-finger gesture"),
   ("FOUR_FINGERS", "🖖 Vulcan salute")]

/-- gestureToText (lines 760-791): `gestureMap[gesture] || 'Unknown gesture'`. -/
def gestureToText (g : String) : String :=
  ((gestureTextMap.find? (fun e => e.1 = g)).map Prod.snd).getD "Unknown gesture"

/-- confidence (line 258): 0.4 for UNKNOWN, 0.9 otherwise. -/
def confidenceOf (g : String) : ℝ := if g = "UNKNOWN" then 0.4 else 0.9

/-- The gesture pipeline's per-session state: the motion state, the raw
gesture history (gestureHistoryRef) and lastGestureRef. -/
structure PipelineState where
  motion : MotionState
  gestureHistory : List String
  lastGesture : String × ℝ

/-- The refs' initial values (lines 26-29 and 52). -/
def initPipeline : PipelineState :=
  { motion := initMotion, gestureHistory := [], lastGesture := ("", 0) }

/-- processHands (lines 181-276) on one results frame: take the first hand,
normalize, update the velocity and motion-history buffers (capacity 15 each),
classify with motion context, push the raw label onto the bounded gesture
history, smooth, and emit the stabilized event.  A thrown TypeError inside
normalization or classification aborts the pass at that point, which is why
the two abort branches return the state mutated so far. -/
def processHands (s : PipelineState) (multiHandLandmarks : List (List Landmark))
    (now dateNow : ℝ) : PipelineState × Option GestureEvent :=
  match multiHandLandmarks[0]? with
  | none => (s, none)
  | some lms =>
      match normalizeLandmarks lms with
      | .error _ => (s, none)
      | .ok normalized =>
          let m := s.motion
          let m :=
            match m.prevLandmarks, m.prevTimestamp with
            | some prev, some t =>
                if t = 0 then m
                else
                  { m with velocities := lastN 14 m.velocities
                      ++ [calculateVelocities prev normalized ((now - t) / 1000)] }
            | _, _ => m
          let m := { m with
            motionHistory := lastN 14 m.motionHistory ++ [(now, normalized)]
            prevLandmarks := some normalized
            prevTimestamp := some now }
          match recognizeGesture normalized m with
          | .error _ => ({ s with motion := m }, none)
          | .ok rawGesture =>
              let history := s.gestureHistory ++ [rawGesture]
              let history := if 15 < history.length then history.drop 1 else history
              let previous := if s.lastGesture.1 = "" then "UNKNOWN" else s.lastGesture.1
              let finalGesture := smoothLabel rawGesture history previous
              let lastGesture :=
                if finalGesture ≠ previous then (finalGesture, dateNow) else s.lastGesture
              let ev : GestureEvent :=
                { gesture := finalGesture, text := gestureToText finalGesture
                  confidence := confidenceOf finalGesture, timestamp := dateNow }
              ({ motion := m, gestureHistory := history, lastGesture := lastGesture }, some ev)

/-- The pipeline's reaction to a sequence of frames, each given as the
detected hands plus the performance.now and Date.now readings. -/
def runPipeline (s : PipelineState) (frames : List (List (List Landmark) × ℝ × ℝ)) :
    PipelineState :=
  frames.foldl (fun st f => (processHands st f.1 f.2.1 f.2.2).1) s

end

/-! ## Lemmas about the session model -/

lemma acceptOffer_trace (s : Session) (o : String) :
    (acceptOffer s o).sentOffers = s.sentOffers ∧
    (acceptOffer s o).offerSent = s.offerSent ∧
    (acceptOffer s o).isInitiator = s.isInitiator ∧
    (acceptOffer s o).roomReady = s.roomReady ∧
    (acceptOffer s o).hasLocalStream = s.hasLocalStream := by
  cases hpc : s.pc with
  | none => simp [acceptOffer, createPeerConnection, hpc]
  | some pc => simp [acceptOffer, hpc]

lemma createAndSendOffer_trace (s : Session) :
    (createAndSendOffer s).sentOffers = s.sentOffers ++ ["offer"] ∧
    (createAndSendOffer s).offerSent = s.offerSent ∧
    (createAndSendOffer s).isInitiator = s.isInitiator ∧
    (createAndSendOffer s).roomReady = s.roomReady ∧
    (createAndSendOffer s).hasLocalStream = s.hasLocalStream := by
  cases hpc : s.pc with
  | none => simp [createAndSendOffer, createPeerConnection, hpc]
  | some pc => simp [createAndSendOffer, hpc]

lemma maybeStartCall_cases (s : Session) :
    maybeStartCall s = s ∨
    (s.isInitiator = true ∧ s.roomReady = true ∧ s.hasLocalStream = true ∧
      s.offerSent = false ∧
      maybeStartCall s = createAndSendOffer { s with offerSent := true }) := by
  by_cases h1 : s.isInitiator
  · by_cases h2 : s.roomReady
    · by_cases h3 : s.hasLocalStream
      · by_cases h4 : s.offerSent
        · left; simp [maybeStartCall, h1, h2, h3, h4]
        · right
          refine ⟨by simpa using h1, by simpa using h2, by simpa using h3, by simpa using h4, ?_⟩
          simp [maybeStartCall, h1, h2, h3, h4]
      · left; simp [maybeStartCall, h1, h2, h3]
    · left; simp [maybeStartCall, h1, h2]
  · left; simp [maybeStartCall, h1]

lemma handleAnswer_trace (s : Session) (a : String) :
    (handleAnswer s a).sentOffers = s.sentOffers ∧
    (handleAnswer s a).offerSent = s.offerSent := by
  cases hpc : s.pc with
  | none => simp [handleAnswer, hpc]
  | some pc =>
      by_cases hst : pc.signalingState = SigState.haveLocalOffer
      · simp [handleAnswer, hpc, hst]
      · simp [handleAnswer, hpc, hst]

lemma handleCandidate_trace (s : Session) (c : String) :
    (handleCandidate s c).sentOffers = s.sentOffers ∧
    (handleCandidate s c).offerSent = s.offerSent := by
  cases hpc : s.pc with
  | none => simp [handleCandidate, hpc]
  | some pc =>
      by_cases hst : pc.signalingState = SigState.closed
      · simp [handleCandidate, hpc, hst]
      · simp [handleCandidate, hpc, hst]

lemma processPendingCandidates_trace (s : Session) :
    (processPendingCandidates s).sentOffers = s.sentOffers ∧
    (processPendingCandidates s).offerSent = s.offerSent := by
  cases hpc : s.pc with
  | none => simp [processPendingCandidates, hpc]
  | some pc =>
      by_cases hst : pc.signalingState = SigState.closed
      · simp [processPendingCandidates, hpc, hst]
      · simp [processPendingCandidates, hpc, hst]

/-- The one-shot-offer invariant: at most one offer has been emitted, and none
at all while the `offerSent` flag is still clear. -/
def OfferInv (s : Session) : Prop :=
  s.sentOffers.length ≤ 1 ∧ (s.offerSent = false → s.sentOffers = [])

lemma offerInv_maybeStartCall (s : Session) (h : OfferInv s) : OfferInv (maybeStartCall s) := by
  rcases maybeStartCall_cases s with heq | ⟨_, _, _, hflag, heq⟩
  · rw [heq]; exact h
  · rw [heq]
    obtain ⟨ht, hf, _, _, _⟩ := createAndSendOffer_trace { s with offerSent := true }
    constructor
    · rw [ht]; simp [h.2 hflag]
    · rw [hf]; intro hcontra; simp at hcontra

lemma offerInv_step (s : Session) (e : SigEv) (h : OfferInv s) : OfferInv (sessionStep s e) := by
  cases e with
  | joinAck c => exact ⟨h.1, h.2⟩
  | roomReady => exact offerInv_maybeStartCall _ ⟨h.1, h.2⟩
  | mediaReady =>
      show OfferInv (startLocalStreamSuccess s)
      unfold startLocalStreamSuccess
      apply offerInv_maybeStartCall
      cases hpo : ({ s with hasLocalStream := true } : Session).pendingOffer with
      | none => simpa [hpo] using h
      | some o =>
          simp only [hpo]
          obtain ⟨ht, hf, _, _, _⟩ :=
            acceptOffer_trace { { s with hasLocalStream := true } with pendingOffer := none } o
          exact ⟨by rw [ht]; exact h.1, by rw [ht, hf]; exact h.2⟩
  | offerRecv o =>
      show OfferInv (handleOffer s o)
      unfold handleOffer
      by_cases hm : s.hasLocalStream
      · simp only [hm]
        obtain ⟨ht, hf, _, _, _⟩ := acceptOffer_trace s o
        exact ⟨by simp [hm, ht]; exact h.1, by simp [hm, ht, hf]; exact h.2⟩
      · simp only [Bool.not_eq_true] at hm
        simp [hm]
        exact ⟨h.1, h.2⟩
  | answerRecv a =>
      obtain ⟨ht, hf⟩ := handleAnswer_trace s a
      exact ⟨by simpa [sessionStep, ht] using h.1, by simpa [sessionStep, ht, hf] using h.2⟩
  | candRecv c =>
      obtain ⟨ht, hf⟩ := handleCandidate_trace s c
      exact ⟨by simpa [sessionStep, ht] using h.1, by simpa [sessionStep, ht, hf] using h.2⟩
  | drainPending =>
      obtain ⟨ht, hf⟩ := processPendingCandidates_trace s
      exact ⟨by simpa [sessionStep, ht] using h.1, by simpa [sessionStep, ht, hf] using h.2⟩

lemma offerInv_run (evs : List SigEv) (s : Session) (h : OfferInv s) :
    OfferInv (runSession s evs) := by
  induction evs generalizing s with
  | nil => exact h
  | cons e rest ih => exact ih (sessionStep s e) (offerInv_step s e h)

lemma startLocalStreamSuccess_shape (s : Session) :
    ∃ s2 : Session, startLocalStreamSuccess s = maybeStartCall s2 ∧
      s2.sentOffers = s.sentOffers ∧ s2.offerSent = s.offerSent ∧
      s2.isInitiator = s.isInitiator ∧ s2.roomReady = s.roomReady ∧
      s2.hasLocalStream = true := by
  unfold startLocalStreamSuccess
  cases hpo : s.pendingOffer with
  | none =>
      refine ⟨{ s with hasLocalStream := true }, ?_, by simp, by simp, by simp, by simp, by simp⟩
      simp [hpo]
  | some o =>
      refine ⟨acceptOffer { { s with hasLocalStream := true } with pendingOffer := none } o,
        by simp [hpo], ?_, ?_, ?_, ?_, ?_⟩ <;>
      · obtain ⟨h1, h2, h3, h4, h5⟩ :=
          acceptOffer_trace { { s with hasLocalStream := true } with pendingOffer := none } o
        simp [h1, h2, h3, h4, h5]

lemma maybeStartCall_increase (s : Session)
    (h : s.sentOffers.length < (maybeStartCall s).sentOffers.length) :
    (maybeStartCall s).isInitiator = true ∧ (maybeStartCall s).roomReady = true ∧
    (maybeStartCall s).hasLocalStream = true ∧ s.offerSent = false ∧
    (maybeStartCall s).offerSent = true := by
  rcases maybeStartCall_cases s with heq | ⟨h1, h2, h3, h4, heq⟩
  · rw [heq] at h; exact absurd h (lt_irrefl _)
  · obtain ⟨ht, hf, hi, hr, hm⟩ := createAndSendOffer_trace { s with offerSent := true }
    rw [heq]
    refine ⟨by rw [hi]; exact h1, by rw [hr]; exact h2, by rw [hm]; exact h3, h4, by rw [hf]⟩

/-- C3: per session at most one SDP offer is ever sent, whatever the event
sequence; a caller that sees room-ready and local-media-ready, in either
order, sends exactly one offer; and an event makes the offer count grow only
when, at that event, the session is the caller, the room is ready, local
media is acquired and the one-shot flag was still clear (and is then set). -/
theorem webrtc_offer_one_shot :
    (∀ evs : List SigEv, (runSession initSession evs).sentOffers.length ≤ 1) ∧
    (runSession initSession
        [SigEv.joinAck true, SigEv.roomReady, SigEv.mediaReady]).sentOffers.length = 1 ∧
    (runSession initSession
        [SigEv.joinAck true, SigEv.mediaReady, SigEv.roomReady]).sentOffers.length = 1 ∧
    (∀ (s : Session) (e : SigEv),
      s.sentOffers.length < (sessionStep s e).sentOffers.length →
        (sessionStep s e).isInitiator = true ∧ (sessionStep s e).roomReady = true ∧
        (sessionStep s e).hasLocalStream = true ∧ s.offerSent = false ∧
        (sessionStep s e).offerSent = true) := by
  refine ⟨?_, by decide, by decide, ?_⟩
  · intro evs
    exact (offerInv_run evs initSession ⟨by simp [initSession], fun _ => rfl⟩).1
  · intro s e h
    cases e with
    | joinAck c => exact absurd h (lt_irrefl _)
    | roomReady => exact maybeStartCall_increase { s with roomReady := true } h
    | mediaReady =>
        obtain ⟨s2, heq, ht, hf, hi, hr, hm⟩ := startLocalStreamSuccess_shape s
        have h2 : s2.sentOffers.length < (maybeStartCall s2).sentOffers.length := by
          rw [ht]
          exact heq ▸ h
        obtain ⟨g1, g2, g3, g4, g5⟩ := maybeStartCall_increase s2 h2
        have hstep : sessionStep s SigEv.mediaReady = maybeStartCall s2 := heq
        rw [hstep]
        exact ⟨g1, g2, g3, by rw [← hf]; exact g4, g5⟩
    | offerRecv o =>
        have : (handleOffer s o).sentOffers = s.sentOffers := by
          unfold handleOffer
          by_cases hm : s.hasLocalStream
          · simp only [hm, Bool.not_true, Bool.false_eq_true, if_false]
            exact (acceptOffer_trace s o).1
          · simp only [Bool.not_eq_true] at hm
            simp [hm]
        rw [show (sessionStep s (SigEv.offerRecv o)) = handleOffer s o from rfl, this] at h
        exact absurd h (lt_irrefl _)
    | answerRecv a =>
        rw [show (sessionStep s (SigEv.answerRecv a)) = handleAnswer s a from rfl,
          (handleAnswer_trace s a).1] at h
        exact absurd h (lt_irrefl _)
    | candRecv c =>
        rw [show (sessionStep s (SigEv.candRecv c)) = handleCandidate s c from rfl,
          (handleCandidate_trace s c).1] at h
        exact absurd h (lt_irrefl _)
    | drainPending =>
        rw [show (sessionStep s SigEv.drainPending) = processPendingCandidates s from rfl,
          (processPendingCandidates_trace s).1] at h
        exact absurd h (lt_irrefl _)

/-- C7: an incoming answer is applied as the remote description only in the
have-local-offer signaling state; with no peer connection, or in any other
state (stable included), handleAnswer leaves the session untouched. -/
theorem webrtc_answer_guard :
    ∀ (s : Session) (a : String),
      (s.pc = none → handleAnswer s a = s) ∧
      (∀ pc : PeerConn, s.pc = some pc → pc.signalingState ≠ SigState.haveLocalOffer →
        handleAnswer s a = s) ∧
      (∀ pc : PeerConn, s.pc = some pc → pc.signalingState = SigState.haveLocalOffer →
        handleAnswer s a =
          { s with pc := some { pc with remoteDesc := some a
                                        signalingState := SigState.stable } }) := by
  intro s a
  refine ⟨fun h => by simp [handleAnswer, h], fun pc h hne => ?_, fun pc h he => ?_⟩
  · simp [handleAnswer, h, hne]
  · simp [handleAnswer, h, he]

/-- C7 witness: a session whose connection sits in the stable state discards
an incoming answer without any state change. -/
theorem webrtc_answer_guard_witness :
    handleAnswer { initSession with pc := some ⟨SigState.stable, none, none, []⟩ } "sdp"
      = { initSession with pc := some ⟨SigState.stable, none, none, []⟩ } :=
  (webrtc_answer_guard { initSession with pc := some ⟨SigState.stable, none, none, []⟩ }
    "sdp").2.1 ⟨SigState.stable, none, none, []⟩ rfl (by decide)

/-- C8: ICE candidates arriving with no peer connection, or with a closed one,
are appended to the FIFO queue; with no connection a whole arrival sequence is
queued in order; and once the connection is viable the drain empties the queue
and applies the buffered candidates in their original arrival order, dropping
none. -/
theorem webrtc_ice_fifo :
    (∀ (s : Session) (c : String), s.pc = none →
        handleCandidate s c = { s with pendingCandidates := s.pendingCandidates ++ [c] }) ∧
    (∀ (s : Session) (c : String) (pc : PeerConn), s.pc = some pc →
        pc.signalingState = SigState.closed →
        handleCandidate s c = { s with pendingCandidates := s.pendingCandidates ++ [c] }) ∧
    (∀ (s : Session) (cs : List String), s.pc = none →
        (cs.foldl handleCandidate s).pendingCandidates = s.pendingCandidates ++ cs ∧
        (cs.foldl handleCandidate s).pc = none) ∧
    (∀ (s : Session) (pc : PeerConn), s.pc = some pc →
        pc.signalingState ≠ SigState.closed →
        processPendingCandidates s =
          { s with pc := some { pc with applied := pc.applied ++ s.pendingCandidates }
                   pendingCandidates := [] }) := by
  have hdrain : ∀ (pc : PeerConn) (l : List String),
      drainLoop pc l = { pc with applied := pc.applied ++ l } := by
    intro pc l
    induction l generalizing pc with
    | nil => simp [drainLoop]
    | cons c rest ih => rw [drainLoop, ih]; simp
  refine ⟨fun s c h => by simp [handleCandidate, h], fun s c pc h hc => ?_, ?_, ?_⟩
  · simp [handleCandidate, h, hc]
  · intro s cs h
    induction cs generalizing s with
    | nil => simp [h]
    | cons c rest ih =>
        have hstep : handleCandidate s c
            = { s with pendingCandidates := s.pendingCandidates ++ [c] } := by
          simp [handleCandidate, h]
        have := ih { s with pendingCandidates := s.pendingCandidates ++ [c] } (by simp [h])
        simp only [List.foldl_cons, hstep]
        exact ⟨by rw [this.1]; simp, this.2⟩
  · intro s pc h hc
    simp [processPendingCandidates, h, hc, hdrain]

/-- C8 witness: with no peer connection, three candidates are queued in
arrival order and none is dropped. -/
theorem webrtc_ice_fifo_witness :
    (([ "c1", "c2", "c3" ] : List String).foldl handleCandidate initSession).pendingCandidates
      = ["c1", "c2", "c3"] := by
  have h := (webrtc_ice_fifo.2.2.1 initSession ["c1", "c2", "c3"] rfl).1
  simpa using h

/-! ## Lemmas about the temporal smoother and the callback registry -/

lemma tally_entry_cases (acc : List (String × ℕ)) (g : String) :
    ∀ e ∈ tally acc g, (e.1 = g ∧ 1 ≤ e.2) ∨ e ∈ acc := by
  induction acc with
  | nil =>
      intro e he
      simp [tally] at he
      exact Or.inl (by simp [he])
  | cons kv rest ih =>
      obtain ⟨k, v⟩ := kv
      intro e he
      by_cases hk : k = g
      · simp only [tally, if_pos hk, List.mem_cons] at he
        rcases he with he | he
        · exact Or.inl (by simp [he, hk])
        · exact Or.inr (List.mem_cons_of_mem _ he)
      · simp only [tally, if_neg hk, List.mem_cons] at he
        rcases he with he | he
        · exact Or.inr (by simp [he])
        · rcases ih e he with h | h
          · exact Or.inl h
          · exact Or.inr (List.mem_cons_of_mem _ h)

lemma gestureCounts_entries (recent : List String) :
    ∀ e ∈ gestureCounts recent, e.1 ≠ "UNKNOWN" ∧ 1 ≤ e.2 := by
  suffices h : ∀ acc : List (String × ℕ), (∀ e ∈ acc, e.1 ≠ "UNKNOWN" ∧ 1 ≤ e.2) →
      ∀ e ∈ recent.foldl (fun acc g => if g = "UNKNOWN" then acc else tally acc g) acc,
        e.1 ≠ "UNKNOWN" ∧ 1 ≤ e.2 by
    exact h [] (by simp)
  induction recent with
  | nil => intro acc hacc e he; exact hacc e he
  | cons g rest ih =>
      intro acc hacc e he
      simp only [List.foldl_cons] at he
      by_cases hg : g = "UNKNOWN"
      · rw [if_pos hg] at he; exact ih acc hacc e he
      · rw [if_neg hg] at he
        refine ih (tally acc g) ?_ e he
        intro f hf
        rcases tally_entry_cases acc g f hf with ⟨h1, h2⟩ | h
        · exact ⟨by rw [h1]; exact hg, h2⟩
        · exact hacc f h

lemma lookupCount_tally (acc : List (String × ℕ)) (g h : String) :
    lookupCount g (tally acc h) = lookupCount g acc + (if g = h then 1 else 0) := by
  induction acc with
  | nil =>
      by_cases hg : h = g
      · simp [tally, lookupCount, hg]
      · have hgh : ¬(g = h) := fun e => hg e.symm
        simp [tally, lookupCount, hg, hgh]
  | cons kv rest ih =>
      obtain ⟨k, v⟩ := kv
      by_cases hk : k = h
      · subst hk
        by_cases hgk : k = g
        · subst hgk
          simp [tally, lookupCount]
        · have h1 : ¬(g = k) := fun e => hgk e.symm
          simp [tally, lookupCount, hgk, h1]
      · by_cases hgk : k = g
        · subst hgk
          simp [tally, lookupCount, hk]
        · simp [tally, lookupCount, hk, hgk, ih]

lemma lookupCount_gestureCounts (recent : List String) (g : String) (hg : g ≠ "UNKNOWN") :
    lookupCount g (gestureCounts recent) = recent.count g := by
  suffices h : ∀ acc : List (String × ℕ),
      lookupCount g (recent.foldl (fun acc g => if g = "UNKNOWN" then acc else tally acc g) acc)
        = lookupCount g acc + recent.count g by
    simpa [gestureCounts, lookupCount] using h []
  induction recent with
  | nil => intro acc; simp
  | cons a rest ih =>
      intro acc
      simp only [List.foldl_cons, List.count_cons]
      by_cases ha : a = "UNKNOWN"
      · subst ha
        have hag : ¬(("UNKNOWN" : String) = g) := fun e => hg e.symm
        rw [if_pos rfl, ih]
        simp [hag]
      · rw [if_neg ha, ih, lookupCount_tally]
        by_cases hga : g = a
        · simp [hga]
          omega
        · have hag : ¬(a = g) := fun e => hga e.symm
          simp [hga, hag]

lemma pickStep_foldl_spec (l : List (String × ℕ)) (init : String × ℕ) :
    init.2 ≤ (l.foldl pickStep init).2 ∧
    (∀ e ∈ l, e.2 ≤ (l.foldl pickStep init).2) ∧
    (l.foldl pickStep init = init ∨
      (init.2 < (l.foldl pickStep init).2 ∧
        ∃ l1 l2, l = l1 ++ (l.foldl pickStep init) :: l2 ∧
          ∀ e ∈ l1, e.2 < (l.foldl pickStep init).2)) := by
  induction l generalizing init with
  | nil => simp
  | cons a rest ih =>
      simp only [List.foldl_cons]
      by_cases ha : init.2 < a.2
      · have hstep : pickStep init a = a := by simp [pickStep, ha]
        rw [hstep]
        obtain ⟨h1, h2, h3⟩ := ih a
        refine ⟨le_trans (le_of_lt ha) h1, ?_, ?_⟩
        · intro e he
          rcases List.mem_cons.mp he with he | he
          · rw [he]; exact h1
          · exact h2 e he
        · rcases h3 with heq | ⟨hlt, l1, l2, hdec, hsmall⟩
          · right
            refine ⟨by rw [heq]; exact ha, [], rest, by rw [heq]; rfl, by simp⟩
          · right
            refine ⟨lt_of_lt_of_le ha h1, a :: l1, l2, by rw [List.cons_append, ← hdec], ?_⟩
            intro e he
            rcases List.mem_cons.mp he with he | he
            · rw [he]; exact hlt
            · exact hsmall e he
      · have hstep : pickStep init a = init := by simp [pickStep, ha]
        rw [hstep]
        obtain ⟨h1, h2, h3⟩ := ih init
        refine ⟨h1, ?_, ?_⟩
        · intro e he
          rcases List.mem_cons.mp he with he | he
          · rw [he]; exact le_trans (le_of_not_lt ha) h1
          · exact h2 e he
        · rcases h3 with heq | ⟨hlt, l1, l2, hdec, hsmall⟩
          · exact Or.inl heq
          · right
            refine ⟨hlt, a :: l1, l2, by rw [List.cons_append, ← hdec], ?_⟩
            intro e he
            rcases List.mem_cons.mp he with he | he
            · rw [he]; exact lt_of_le_of_lt (le_of_not_lt ha) hlt
            · exact hsmall e he

lemma lastN_of_le {l : List α} {n : ℕ} (h : l.length ≤ n) : lastN n l = l := by
  simp [lastN, Nat.sub_eq_zero_of_le h]

lemma lastN_length_le (n : ℕ) (l : List α) : (lastN n l).length ≤ n := by
  simp [lastN]
  omega

/-- C4: the smoother votes over the last 9 history entries, UNKNOWN is
excluded from the counts, the first entry attaining the strictly highest
count wins, the winner replaces the previous stable label only when its count
reaches 3, confidence is 0.9 for a non-UNKNOWN stable label and 0.4 for
UNKNOWN, and the two example histories smooth to A and C. -/
theorem smoother_majority_vote :
    (∀ (raw : String) (h : List String) (prev : String),
      smoothLabel raw h prev = smoothLabel raw (lastN 9 h) prev) ∧
    (∀ recent : List String, ∀ e ∈ gestureCounts recent, e.1 ≠ "UNKNOWN" ∧ 1 ≤ e.2) ∧
    (∀ (recent : List String) (g : String), g ≠ "UNKNOWN" →
      lookupCount g (gestureCounts recent) = recent.count g) ∧
    (∀ (raw : String) (h : List String) (prev : String),
      gestureCounts (lastN 9 h) = [] → smoothLabel raw h prev = prev) ∧
    (∀ (raw : String) (h : List String) (prev : String),
      gestureCounts (lastN 9 h) ≠ [] →
      ∃ l1 l2 g c, gestureCounts (lastN 9 h) = l1 ++ (g, c) :: l2 ∧
        (∀ e ∈ l1, e.2 < c) ∧ (∀ e ∈ gestureCounts (lastN 9 h), e.2 ≤ c) ∧
        smoothLabel raw h prev = (if 3 ≤ c then g else prev)) ∧
    (∀ g : String, confidenceOf g = if g = "UNKNOWN" then (0.4 : ℝ) else 0.9) ∧
    (∀ raw prev : String,
      smoothLabel raw ["A", "A", "A", "A", "A", "A", "A", "A", "B"] prev = "A") ∧
    (∀ raw prev : String,
      smoothLabel raw ["A", "A", "B", "B", "B", "C", "C", "C", "C"] prev = "C") := by
  have hwin : ∀ h : List String, lastN 9 (lastN 9 h) = lastN 9 h :=
    fun h => lastN_of_le (lastN_length_le 9 h)
  refine ⟨?_, gestureCounts_entries, ?_, ?_, ?_, fun g => rfl, fun raw prev => rfl,
    fun raw prev => rfl⟩
  · intro raw h prev
    simp only [smoothLabel, hwin]
  · intro recent g hg
    exact lookupCount_gestureCounts recent g hg
  · intro raw h prev hemp
    simp [smoothLabel, bestEntry, hemp]
  · intro raw h prev hne
    obtain ⟨h1, h2, h3⟩ := pickStep_foldl_spec (gestureCounts (lastN 9 h)) (raw, 0)
    rcases h3 with heq | ⟨hlt, l1, l2, hdec, hsmall⟩
    · obtain ⟨e, he⟩ := List.exists_mem_of_ne_nil _ hne
      have h1e := (gestureCounts_entries (lastN 9 h) e he).2
      have := h2 e he
      rw [heq] at this
      omega
    · refine ⟨l1, l2, (List.foldl pickStep (raw, 0) (gestureCounts (lastN 9 h))).1,
        (List.foldl pickStep (raw, 0) (gestureCounts (lastN 9 h))).2, by simpa using hdec,
        hsmall, h2, ?_⟩
      simp only [smoothLabel, bestEntry]

/-- C4 witness: on the window A,A,B,B,B,C,C,C,C the characterization is
inhabited — the counts are nonempty and the first strict-maximum entry
decides the smoothed label. -/
theorem smoother_majority_vote_witness :
    gestureCounts (lastN 9 ["A", "A", "B", "B", "B", "C", "C", "C", "C"]) ≠ [] ∧
    (∃ l1 l2 g c,
      gestureCounts (lastN 9 ["A", "A", "B", "B", "B", "C", "C", "C", "C"])
        = l1 ++ (g, c) :: l2 ∧
      (∀ e ∈ l1, e.2 < c) ∧
      (∀ e ∈ gestureCounts (lastN 9 ["A", "A", "B", "B", "B", "C", "C", "C", "C"]), e.2 ≤ c) ∧
      smoothLabel "C" ["A", "A", "B", "B", "B", "C", "C", "C", "C"] "X"
        = (if 3 ≤ c then g else "X")) :=
  ⟨by decide,
    smoother_majority_vote.2.2.2.2.1 "C" ["A", "A", "B", "B", "B", "C", "C", "C", "C"] "X"
      (by decide)⟩

/-- C10: notifying delivers the event to every registered callback once, in
registration order; a callback that throws does not stop the remaining
callbacks from being invoked (each invocation sits in its own try/catch); the
deregistration handle removes exactly the registered callback and keeps every
other callback's registrations; registering appends the callback. -/
theorem gesture_callbacks_registry :
    (∀ (behavior : ℕ → GestureEvent → Except Unit Unit) (registry : List ℕ) (ev : GestureEvent),
      (notifyAll behavior registry ev).map Prod.fst = registry) ∧
    (∀ (behavior : ℕ → GestureEvent → Except Unit Unit) (pre post : List ℕ) (c : ℕ)
        (ev : GestureEvent),
      notifyAll behavior (pre ++ c :: post) ev
        = notifyAll behavior pre ev ++ (c, behavior c ev) :: notifyAll behavior post ev) ∧
    (∀ (registry : List ℕ) (cb : ℕ), cb ∉ removeCallback cb registry) ∧
    (∀ (registry : List ℕ) (cb d : ℕ), d ≠ cb →
      (removeCallback cb registry).count d = registry.count d) ∧
    (∀ (registry : List ℕ) (cb : ℕ), registerCallback registry cb = registry ++ [cb]) := by
  refine ⟨?_, ?_, ?_, ?_, fun _ _ => rfl⟩
  · intro behavior registry ev
    induction registry with
    | nil => rfl
    | cons c rest ih => simp [notifyAll, ih]
  · intro behavior pre post c ev
    induction pre with
    | nil => rfl
    | cons a rest ih => simp [notifyAll, ih]
  · intro registry cb
    simp [removeCallback, List.mem_filter]
  · intro registry cb d hd
    have hda : ∀ a : ℕ, a = cb → (a == d) = false := by
      intro a ha
      apply beq_eq_false_iff_ne.mpr
      intro e
      exact hd (e.symm.trans ha)
    induction registry with
    | nil => rfl
    | cons a rest ih =>
        by_cases ha : a = cb
        · rw [show removeCallback cb (a :: rest) = removeCallback cb rest from by
            simp [removeCallback, List.filter_cons, ha]]
          rw [ih, List.count_cons, hda a ha]
          simp
        · rw [show removeCallback cb (a :: rest) = a :: removeCallback cb rest from by
            simp [removeCallback, List.filter_cons, ha]]
          rw [List.count_cons, List.count_cons, ih]

/-- Callback behaviour for the C10 witness: reference 2 throws. -/
def throwOn2 : ℕ → GestureEvent → Except Unit Unit :=
  fun c _ => if c = 2 then .error () else .ok ()

/-- A sample stabilized gesture event for the C10 witness. -/
noncomputable def evSample : GestureEvent :=
  { gesture := "WAVE", text := "wave", confidence := 0.9, timestamp := 0 }

/-- C10 witness: with callbacks 1, 2, 3 registered and callback 2 throwing,
callback 3 is still invoked with the event, and deregistering 2 yields the
registry 1, 3. -/
theorem gesture_callbacks_registry_witness :
    notifyAll throwOn2 [1, 2, 3] evSample
      = notifyAll throwOn2 [1] evSample
        ++ (2, throwOn2 2 evSample) :: notifyAll throwOn2 [3] evSample ∧
    throwOn2 2 evSample = .error () ∧
    removeCallback 2 [1, 2, 3] = [1, 3] :=
  ⟨gesture_callbacks_registry.2.1 throwOn2 [1] [3] 2 evSample, rfl, by decide⟩

/-! ## Lemmas about throwing accesses and short inputs -/

lemma exbind_err {α β : Type} (f : α → Except Unit β) :
    (Except.error () : Except Unit α) >>= f = Except.error () := rfl

lemma exbind_ok {α β : Type} (a : α) (f : α → Except Unit β) :
    (Except.ok a : Except Unit α) >>= f = f a := rfl

lemma getLm_short {l : List Landmark} {i : ℕ} (h : l.length ≤ i) : getLm l i = .error () := by
  unfold getLm
  rw [List.getElem?_eq_none h]

lemma isFingerExtended_short {l : List Landmark} (h : l.length ≤ 20) :
    isFingerExtended l 20 18 = .error () := by
  unfold isFingerExtended
  rw [getLm_short h, exbind_err]

lemma isOpenHand_short {l : List Landmark} (h : l.length < 21) :
    isOpenHand l = .error () := by
  have h20 : isFingerExtended l 20 18 = .error () := isFingerExtended_short (by omega)
  unfold isOpenHand
  cases h86 : isFingerExtended l 8 6 with
  | error e => cases e; rfl
  | ok b1 =>
      rw [exbind_ok]
      cases h1210 : isFingerExtended l 12 10 with
      | error e => cases e; rfl
      | ok b2 =>
          rw [exbind_ok]
          cases h1614 : isFingerExtended l 16 14 with
          | error e => cases e; rfl
          | ok b3 =>
              rw [exbind_ok, h20, exbind_err]

lemma isWave_short {l : List Landmark} (h : l.length < 21) (ms : MotionState) :
    isWave l ms = .error () := by
  unfold isWave
  rw [isOpenHand_short h, exbind_err]

lemma recognizeGesture_short {l : List Landmark} (h : l.length < 21) (ms : MotionState) :
    recognizeGesture l ms = .error () := by
  unfold recognizeGesture
  rw [isWave_short h ms, exbind_err]

/-- The origin landmark, used to build concrete frames. -/
def zeroLm : Landmark := { x := 0, y := 0, z := 0 }

/-- C1 (the code's actual behaviour on short input): on an empty landmark
list, and on a 20-joint list, the classifier throws — isOpenHand (inside the
first predicate, isWave) dereferences a missing joint — instead of failing
closed to UNKNOWN; the same happens for every list with fewer than 21
joints. -/
theorem classifier_throws_on_short_input :
    recognizeGesture [] initMotion = .error () ∧
    recognizeGesture (List.replicate 20 zeroLm) initMotion = .error () ∧
    (∀ (l : List Landmark) (ms : MotionState), l.length < 21 →
      recognizeGesture l ms = .error ()) :=
  ⟨recognizeGesture_short (by simp) initMotion,
   recognizeGesture_short (by simp) initMotion,
   fun _ ms h => recognizeGesture_short h ms⟩

/-- C2 (the code's actual behaviour): calculateVelocities has no guard on
timeDelta.  With equal 21-joint lists and timeDelta = -1 every per-joint
velocity is -1, not 0; the all-zero fallback fires only on a joint-count
mismatch, and otherwise the difference quotient is returned for any timeDelta
whatsoever. -/
theorem calculateVelocities_no_timeDelta_guard :
    calculateVelocities (List.replicate 21 zeroLm)
        (List.replicate 21 { x := 1, y := 0, z := 0 }) (-1)
      = List.replicate 21 { x := -1, y := 0 } ∧
    ({ x := -1, y := 0 } : Vel2) ≠ { x := 0, y := 0 } ∧
    (∀ (p c : List Landmark) (td : ℝ), p.length ≠ c.length →
      calculateVelocities p c td = List.replicate 21 { x := 0, y := 0 }) ∧
    (∀ (p c : List Landmark) (td : ℝ), p.length = c.length →
      calculateVelocities p c td
        = List.zipWith (fun cl pl => Vel2.mk ((cl.x - pl.x) / td) ((cl.y - pl.y) / td)) c p) := by
  refine ⟨?_, ?_, ?_, ?_⟩
  · rw [calculateVelocities, if_neg (by simp)]
    rw [List.zipWith_replicate]
    norm_num [Vel2.mk.injEq, zeroLm]
  · intro hcontra
    rw [Vel2.mk.injEq] at hcontra
    norm_num at hcontra
  · intro p c td h
    simp [calculateVelocities, h]
  · intro p c td h
    simp [calculateVelocities, h]

/-- C5: the classifier is exactly first-match evaluation of the fixed
priority table WAVE, STOP, CALL_ME, ROCK_SIGN, THUMB_UP, THUMB_DOWN, FIST,
RAISED_FIST, OK_SIGN, PINCH, PEACE_SIGN, VICTORY_ALT, CLAW, POINT_UP,
POINT_RIGHT, POINT_LEFT, POINT_DOWN, PALM_UP, PALM_DOWN, THREE_FINGERS,
FOUR_FINGERS, FINGER_HEART, CROSS_FINGERS, HANDSHAKE_START, PRAY, OPEN_HAND
with default UNKNOWN; in particular any frame/motion state satisfying the
WAVE pattern (which itself requires the open hand) is labelled WAVE. -/
theorem classifier_priority_order :
    (∀ (l : List Landmark) (ms : MotionState),
      recognizeGesture l ms = firstMatch gesturePriority l ms) ∧
    (∀ (l : List Landmark) (ms : MotionState),
      isWave l ms = .ok true → recognizeGesture l ms = .ok "WAVE") := by
  constructor
  · intro l ms
    rfl
  · intro l ms hw
    unfold recognizeGesture
    rw [hw, exbind_ok]
    rfl

/-! ## Concrete witness data for the classifier -/

noncomputable section

/-- A fingertip landmark lying well above the knuckles. -/
def openTip : Landmark := { x := 0, y := -1, z := 0 }

/-- A 21-joint frame forming an open hand: the four fingertips (indices 8,
12, 16, 20) are far above their PIP joints. -/
def openHandFrame : List Landmark :=
  [zeroLm, zeroLm, zeroLm, zeroLm, zeroLm, zeroLm, zeroLm, zeroLm, openTip,
   zeroLm, zeroLm, zeroLm, openTip, zeroLm, zeroLm, zeroLm, openTip, zeroLm,
   zeroLm, zeroLm, openTip]

/-- A rightward wrist velocity sample. -/
def vR : Vel2 := { x := 1, y := 0 }

/-- A leftward wrist velocity sample. -/
def vL : Vel2 := { x := -1, y := 0 }

/-- Eleven buffered velocity frames alternating right/left: a wave. -/
def waveVels : List (List Vel2) :=
  [[vR], [vL], [vR], [vL], [vR], [vL], [vR], [vL], [vR], [vL], [vR]]

/-- A motion state whose velocity buffer contains the waving motion. -/
def waveMotion : MotionState :=
  { prevLandmarks := none, prevTimestamp := none, velocities := waveVels
    directions := [], motionHistory := [] }

lemma iFE_eval_true {l : List Landmark} {t p : ℕ} {a b : Landmark}
    (ht : getLm l t = .ok a) (hp : getLm l p = .ok b) (h : a.y < b.y - 0.02) :
    isFingerExtended l t p = .ok true := by
  unfold isFingerExtended
  rw [ht, exbind_ok, hp, exbind_ok, decide_eq_true h]
  rfl

lemma isOpenHand_openHandFrame : isOpenHand openHandFrame = .ok true := by
  have hy : openTip.y < zeroLm.y - 0.02 := by norm_num [openTip, zeroLm]
  have h8 : isFingerExtended openHandFrame 8 6 = .ok true := iFE_eval_true rfl rfl hy
  have h12 : isFingerExtended openHandFrame 12 10 = .ok true := iFE_eval_true rfl rfl hy
  have h16 : isFingerExtended openHandFrame 16 14 = .ok true := iFE_eval_true rfl rfl hy
  have h20 : isFingerExtended openHandFrame 20 18 = .ok true := iFE_eval_true rfl rfl hy
  unfold isOpenHand
  rw [h8, exbind_ok, h12, exbind_ok, h16, exbind_ok, h20, exbind_ok]
  rfl

lemma waveStep_R (acc : WaveAcc) :
    waveStep acc [vR] =
      { directionChanges := acc.directionChanges +
          (match acc.lastDirection with
           | some d => if d ≠ Dir.right then 1 else 0
           | none => 0)
        lastDirection := some Dir.right
        motionAmplitude := acc.motionAmplitude + 1
        significantMotionFrames := acc.significantMotionFrames + 1 } := by
  have hs : Real.sqrt (vR.x * vR.x + vR.y * vR.y) = 1 := by
    rw [show vR.x * vR.x + vR.y * vR.y = (1:ℝ) by norm_num [vR]]
    exact Real.sqrt_one
  unfold waveStep
  simp only [show ([vR] : List Vel2)[0]? = some vR from rfl]
  rw [hs]
  norm_num [vR]

lemma waveStep_L (acc : WaveAcc) :
    waveStep acc [vL] =
      { directionChanges := acc.directionChanges +
          (match acc.lastDirection with
           | some d => if d ≠ Dir.left then 1 else 0
           | none => 0)
        lastDirection := some Dir.left
        motionAmplitude := acc.motionAmplitude + 1
        significantMotionFrames := acc.significantMotionFrames + 1 } := by
  have hs : Real.sqrt (vL.x * vL.x + vL.y * vL.y) = 1 := by
    rw [show vL.x * vL.x + vL.y * vL.y = (1:ℝ) by norm_num [vL]]
    exact Real.sqrt_one
  unfold waveStep
  simp only [show ([vL] : List Vel2)[0]? = some vL from rfl]
  rw [hs]
  norm_num [vL]

lemma waveFold_eval :
    List.foldl waveStep
      { directionChanges := 0, lastDirection := none
        motionAmplitude := 0, significantMotionFrames := 0 }
      [[vL], [vR], [vL], [vR], [vL], [vR], [vL], [vR], [vL], [vR]] =
      { directionChanges := 9, lastDirection := some Dir.right
        motionAmplitude := 10, significantMotionFrames := 10 } := by
  simp only [List.foldl_cons, List.foldl_nil, waveStep_L, waveStep_R]
  norm_num [show ¬(Dir.left = Dir.right) from by decide,
    show ¬(Dir.right = Dir.left) from by decide]

lemma isWave_waveMotion : isWave openHandFrame waveMotion = .ok true := by
  unfold isWave
  rw [isOpenHand_openHandFrame, exbind_ok]
  simp only [Bool.not_true, Bool.false_eq_true, if_false,
    show waveMotion.velocities = waveVels from rfl,
    show waveVels.length = 11 from rfl,
    show waveVels.drop 1 = [[vL], [vR], [vL], [vR], [vL], [vR], [vL], [vR], [vL], [vR]]
      from rfl,
    waveFold_eval]
  rw [if_neg (show ¬(11 < 10) by omega)]
  rw [decide_eq_true (show (0.3 : ℝ) < 10 by norm_num)]
  rfl

end

/-- C5 witness: the open-hand frame with an alternating-velocity buffer
satisfies the WAVE pattern (and the open-hand pose it requires), and the
classifier labels it WAVE. -/
theorem classifier_priority_order_witness :
    isWave openHandFrame waveMotion = .ok true ∧
    isOpenHand openHandFrame = .ok true ∧
    recognizeGesture openHandFrame waveMotion = .ok "WAVE" :=
  ⟨isWave_waveMotion, isOpenHand_openHandFrame,
    classifier_priority_order.2 openHandFrame waveMotion isWave_waveMotion⟩

/-! ## Normalization invariance (C6) -/

noncomputable section

/-- Translate every joint's x and y by a fixed offset. -/
def translateXY (dx dy : ℝ) (l : List Landmark) : List Landmark :=
  l.map fun p => { p with x := p.x + dx, y := p.y + dy }

/-- Scale every joint's x and y by a constant. -/
def scaleXY (c : ℝ) (l : List Landmark) : List Landmark :=
  l.map fun p => { p with x := c * p.x, y := c * p.y }

lemma distance2D_self (a : Landmark) : distance2D a a = 0 := by
  unfold distance2D
  rw [show (a.x - a.x) * (a.x - a.x) + (a.y - a.y) * (a.y - a.y) = (0 : ℝ) by ring]
  exact Real.sqrt_zero

lemma getLm_map (f : Landmark → Landmark) (l : List Landmark) (i : ℕ) :
    getLm (l.map f) i = (getLm l i).map f := by
  unfold getLm
  rw [List.getElem?_map]
  cases l[i]? <;> rfl

lemma normalizeLandmarks_cons (w : Landmark) (rest : List Landmark) (a b : Landmark)
    (h5 : (w :: rest)[5]? = some a) (h17 : (w :: rest)[17]? = some b) :
    normalizeLandmarks (w :: rest) = .ok ((w :: rest).map fun p =>
      { p with
        x := (p.x - w.x) / (if distance2D a b = 0 then 1 else distance2D a b)
        y := (p.y - w.y) / (if distance2D a b = 0 then 1 else distance2D a b) }) := by
  have g5 : getLm (w :: rest) 5 = .ok a := by unfold getLm; rw [h5]
  have g17 : getLm (w :: rest) 17 = .ok b := by unfold getLm; rw [h17]
  simp only [normalizeLandmarks]
  rw [g5, exbind_ok, g17, exbind_ok]
  rfl

lemma normalizeLandmarks_err5 (w : Landmark) (rest : List Landmark)
    (h5 : (w :: rest)[5]? = none) : normalizeLandmarks (w :: rest) = .error () := by
  have g5 : getLm (w :: rest) 5 = .error () := by unfold getLm; rw [h5]
  simp only [normalizeLandmarks]
  rw [g5, exbind_err]

lemma normalizeLandmarks_err17 (w : Landmark) (rest : List Landmark) (a : Landmark)
    (h5 : (w :: rest)[5]? = some a) (h17 : (w :: rest)[17]? = none) :
    normalizeLandmarks (w :: rest) = .error () := by
  have g5 : getLm (w :: rest) 5 = .ok a := by unfold getLm; rw [h5]
  have g17 : getLm (w :: rest) 17 = .error () := by unfold getLm; rw [h17]
  simp only [normalizeLandmarks]
  rw [g5, exbind_ok, g17, exbind_err]

lemma distance2D_translate (dx dy : ℝ) (a b : Landmark) :
    distance2D { a with x := a.x + dx, y := a.y + dy } { b with x := b.x + dx, y := b.y + dy }
      = distance2D a b := by
  unfold distance2D
  congr 1
  ring

lemma distance2D_scale (c : ℝ) (hc : 0 ≤ c) (a b : Landmark) :
    distance2D { a with x := c * a.x, y := c * a.y } { b with x := c * b.x, y := c * b.y }
      = c * distance2D a b := by
  unfold distance2D
  rw [show (c * a.x - c * b.x) * (c * a.x - c * b.x) + (c * a.y - c * b.y) * (c * a.y - c * b.y)
      = c ^ 2 * ((a.x - b.x) * (a.x - b.x) + (a.y - b.y) * (a.y - b.y)) by ring]
  rw [Real.sqrt_mul (sq_nonneg c), Real.sqrt_sq hc]

end

lemma normalize_translate (l : List Landmark) (dx dy : ℝ) :
    normalizeLandmarks (translateXY dx dy l) = normalizeLandmarks l := by
  cases l with
  | nil => rfl
  | cons w rest =>
      have hmapform : translateXY dx dy (w :: rest)
          = ({ w with x := w.x + dx, y := w.y + dy })
            :: rest.map (fun p => { p with x := p.x + dx, y := p.y + dy }) := rfl
      have hlist : ({ w with x := w.x + dx, y := w.y + dy })
          :: rest.map (fun p => { p with x := p.x + dx, y := p.y + dy })
          = (w :: rest).map (fun p => { p with x := p.x + dx, y := p.y + dy }) := rfl
      cases h5 : (w :: rest)[5]? with
      | none =>
          have h5t : (({ w with x := w.x + dx, y := w.y + dy })
              :: rest.map (fun p => { p with x := p.x + dx, y := p.y + dy }))[5]? = none := by
            rw [hlist, List.getElem?_map, h5]
            rfl
          rw [hmapform, normalizeLandmarks_err5 _ _ h5t, normalizeLandmarks_err5 _ _ h5]
      | some a =>
          have h5t : (({ w with x := w.x + dx, y := w.y + dy })
              :: rest.map (fun p => { p with x := p.x + dx, y := p.y + dy }))[5]?
              = some { a with x := a.x + dx, y := a.y + dy } := by
            rw [hlist, List.getElem?_map, h5]
            rfl
          cases h17 : (w :: rest)[17]? with
          | none =>
              have h17t : (({ w with x := w.x + dx, y := w.y + dy })
                  :: rest.map (fun p => { p with x := p.x + dx, y := p.y + dy }))[17]? = none := by
                rw [hlist, List.getElem?_map, h17]
                rfl
              rw [hmapform, normalizeLandmarks_err17 _ _ _ h5t h17t,
                normalizeLandmarks_err17 _ _ _ h5 h17]
          | some b =>
              have h17t : (({ w with x := w.x + dx, y := w.y + dy })
                  :: rest.map (fun p => { p with x := p.x + dx, y := p.y + dy }))[17]?
                  = some { b with x := b.x + dx, y := b.y + dy } := by
                rw [hlist, List.getElem?_map, h17]
                rfl
              rw [hmapform, normalizeLandmarks_cons _ _ _ _ h5t h17t,
                normalizeLandmarks_cons w rest a b h5 h17]
              rw [distance2D_translate]
              congr 1
              rw [hlist, List.map_map]
              apply List.map_congr_left
              intro p hp
              simp only [Function.comp_apply, Landmark.mk.injEq]
              refine ⟨by ring, by ring, trivial⟩

lemma normalize_scale (l : List Landmark) (a b : Landmark) (c : ℝ)
    (h5 : l[5]? = some a) (h17 : l[17]? = some b) (hc : 0 < c)
    (hd : distance2D a b ≠ 0) :
    normalizeLandmarks (scaleXY c l) = normalizeLandmarks l := by
  cases l with
  | nil => simp at h5
  | cons w rest =>
      have hmapform : scaleXY c (w :: rest)
          = ({ w with x := c * w.x, y := c * w.y })
            :: rest.map (fun p => { p with x := c * p.x, y := c * p.y }) := rfl
      have hlist : ({ w with x := c * w.x, y := c * w.y })
          :: rest.map (fun p => { p with x := c * p.x, y := c * p.y })
          = (w :: rest).map (fun p => { p with x := c * p.x, y := c * p.y }) := rfl
      have h5t : (({ w with x := c * w.x, y := c * w.y })
          :: rest.map (fun p => { p with x := c * p.x, y := c * p.y }))[5]?
          = some { a with x := c * a.x, y := c * a.y } := by
        rw [hlist, List.getElem?_map, h5]
        rfl
      have h17t : (({ w with x := c * w.x, y := c * w.y })
          :: rest.map (fun p => { p with x := c * p.x, y := c * p.y }))[17]?
          = some { b with x := c * b.x, y := c * b.y } := by
        rw [hlist, List.getElem?_map, h17]
        rfl
      rw [hmapform, normalizeLandmarks_cons _ _ _ _ h5t h17t,
        normalizeLandmarks_cons w rest a b h5 h17]
      rw [distance2D_scale c hc.le]
      have hcd : c * distance2D a b ≠ 0 := mul_ne_zero (ne_of_gt hc) hd
      rw [if_neg hcd, if_neg hd]
      congr 1
      rw [hlist, List.map_map]
      apply List.map_congr_left
      intro p hp
      simp only [Function.comp_apply, Landmark.mk.injEq]
      refine ⟨?_, ?_, trivial⟩
      · rw [show c * p.x - c * w.x = c * (p.x - w.x) by ring,
          mul_div_mul_left _ _ (ne_of_gt hc)]
      · rw [show c * p.y - c * w.y = c * (p.y - w.y) by ring,
          mul_div_mul_left _ _ (ne_of_gt hc)]

/-- A landmark one unit to the right of the origin. -/
noncomputable def oneLm : Landmark := { x := 1, y := 0, z := 0 }

/-- A degenerate 21-joint frame: joints 5 and 17 coincide (zero hand width),
joint 1 is off the wrist. -/
noncomputable def degFrame : List Landmark :=
  [zeroLm, oneLm, zeroLm, zeroLm, zeroLm, zeroLm, zeroLm, zeroLm, zeroLm, zeroLm,
   zeroLm, zeroLm, zeroLm, zeroLm, zeroLm, zeroLm, zeroLm, zeroLm, zeroLm, zeroLm,
   zeroLm]

/-- A 21-joint frame with unit distance between joints 5 and 17. -/
noncomputable def sepFrame : List Landmark :=
  [zeroLm, zeroLm, zeroLm, zeroLm, zeroLm, zeroLm, zeroLm, zeroLm, zeroLm, zeroLm,
   zeroLm, zeroLm, zeroLm, zeroLm, zeroLm, zeroLm, zeroLm, oneLm, zeroLm, zeroLm,
   zeroLm]

/-- C6 counterexample: on the valid (21-joint) but degenerate frame whose
index-MCP and pinky-MCP coincide, the `|| 1` fallback makes normalization
scale-sensitive — multiplying all x and y by the positive constant 2 changes
the normalized output. -/
theorem normalize_scale_invariance_fails :
    degFrame.length = 21 ∧ (0 : ℝ) < 2 ∧
    normalizeLandmarks (scaleXY 2 degFrame) ≠ normalizeLandmarks degFrame := by
  refine ⟨by simp [degFrame], by norm_num, ?_⟩
  have e1 : normalizeLandmarks degFrame = .ok degFrame := by
    have h0 : normalizeLandmarks degFrame = Except.ok (degFrame.map fun p =>
        { p with
          x := (p.x - zeroLm.x) /
            (if distance2D zeroLm zeroLm = 0 then 1 else distance2D zeroLm zeroLm)
          y := (p.y - zeroLm.y) /
            (if distance2D zeroLm zeroLm = 0 then 1 else distance2D zeroLm zeroLm) }) := rfl
    rw [h0, distance2D_self]
    norm_num [degFrame, zeroLm, oneLm, Landmark.mk.injEq]
  have e2 : normalizeLandmarks (scaleXY 2 degFrame) = .ok (scaleXY 2 degFrame) := by
    have h0 : normalizeLandmarks (scaleXY 2 degFrame)
        = Except.ok ((scaleXY 2 degFrame).map fun p =>
        { p with
          x := (p.x - 2 * zeroLm.x) /
            (if distance2D { zeroLm with x := 2 * zeroLm.x, y := 2 * zeroLm.y }
                  { zeroLm with x := 2 * zeroLm.x, y := 2 * zeroLm.y } = 0 then 1
             else distance2D { zeroLm with x := 2 * zeroLm.x, y := 2 * zeroLm.y }
                  { zeroLm with x := 2 * zeroLm.x, y := 2 * zeroLm.y })
          y := (p.y - 2 * zeroLm.y) /
            (if distance2D { zeroLm with x := 2 * zeroLm.x, y := 2 * zeroLm.y }
                  { zeroLm with x := 2 * zeroLm.x, y := 2 * zeroLm.y } = 0 then 1
             else distance2D { zeroLm with x := 2 * zeroLm.x, y := 2 * zeroLm.y }
                  { zeroLm with x := 2 * zeroLm.x, y := 2 * zeroLm.y }) }) := rfl
    rw [h0, distance2D_self]
    norm_num [scaleXY, degFrame, zeroLm, oneLm, Landmark.mk.injEq]
  intro h
  rw [e1, e2] at h
  norm_num [scaleXY, degFrame, zeroLm, oneLm, Landmark.mk.injEq] at h

/-- C6 amended: normalization is invariant under translating all joints' x/y
(unconditionally) and under scaling all joints' x/y by a positive constant
provided the index-MCP to pinky-MCP distance is nonzero — on degenerate
frames the `|| 1` fallback breaks scale invariance; on any nonempty frame the
output subtracts the wrist from x and y and divides them by that distance
(fallback 1 when it is zero), with z untouched. -/
theorem normalize_invariance_amended :
    (∀ (l : List Landmark) (dx dy : ℝ),
      normalizeLandmarks (translateXY dx dy l) = normalizeLandmarks l) ∧
    (∀ (l : List Landmark) (a b : Landmark) (c : ℝ),
      l[5]? = some a → l[17]? = some b → 0 < c → distance2D a b ≠ 0 →
      normalizeLandmarks (scaleXY c l) = normalizeLandmarks l) ∧
    (∀ (w : Landmark) (rest : List Landmark) (a b : Landmark),
      (w :: rest)[5]? = some a → (w :: rest)[17]? = some b →
      normalizeLandmarks (w :: rest) = .ok ((w :: rest).map fun p =>
        { p with
          x := (p.x - w.x) / (if distance2D a b = 0 then 1 else distance2D a b)
          y := (p.y - w.y) / (if distance2D a b = 0 then 1 else distance2D a b) })) :=
  ⟨normalize_translate,
   fun l a b c h5 h17 hc hd => normalize_scale l a b c h5 h17 hc hd,
   fun w rest a b h5 h17 => normalizeLandmarks_cons w rest a b h5 h17⟩

/-- C6 witness: on a frame with unit hand width, scaling by 2 and translating
by (3, 4) both leave the normalized output unchanged. -/
theorem normalize_invariance_amended_witness :
    sepFrame[5]? = some zeroLm ∧ sepFrame[17]? = some oneLm ∧ (0 : ℝ) < 2 ∧
    distance2D zeroLm oneLm ≠ 0 ∧
    normalizeLandmarks (scaleXY 2 sepFrame) = normalizeLandmarks sepFrame ∧
    normalizeLandmarks (translateXY 3 4 sepFrame) = normalizeLandmarks sepFrame := by
  have hd1 : distance2D zeroLm oneLm = 1 := by
    unfold distance2D
    rw [show (zeroLm.x - oneLm.x) * (zeroLm.x - oneLm.x)
        + (zeroLm.y - oneLm.y) * (zeroLm.y - oneLm.y) = (1 : ℝ) by norm_num [zeroLm, oneLm]]
    exact Real.sqrt_one
  refine ⟨rfl, rfl, by norm_num, by rw [hd1]; norm_num, ?_, ?_⟩
  · exact normalize_invariance_amended.2.1 sepFrame zeroLm oneLm 2 rfl rfl (by norm_num)
      (by rw [hd1]; norm_num)
  · exact normalize_invariance_amended.1 sepFrame 3 4

/-! ## Bounded FIFO buffers of the motion tracker (C9) -/

lemma lastN_append_one (n : ℕ) (l : List α) (a : α) :
    lastN (n + 1) (l ++ [a]) = lastN n l ++ [a] := by
  unfold lastN
  rw [List.length_append]
  rw [show l.length + [a].length - (n + 1) = l.length - n from by simp only [List.length_singleton]; omega]
  rw [List.drop_append_of_le_length (by omega)]

lemma processHands_bounds (s : PipelineState) (mh : List (List Landmark)) (now dn : ℝ)
    (h1 : s.motion.velocities.length ≤ 15)
    (h2 : s.motion.motionHistory.length ≤ 15)
    (h3 : s.gestureHistory.length ≤ 15) :
    (processHands s mh now dn).1.motion.velocities.length ≤ 15 ∧
    (processHands s mh now dn).1.motion.motionHistory.length ≤ 15 ∧
    (processHands s mh now dn).1.gestureHistory.length ≤ 15 := by
  have hlen : ∀ (l : List (List Vel2)) (a : List Vel2), (lastN 14 l ++ [a]).length ≤ 15 := by
    intro l a
    have := lastN_length_le 14 l
    rw [List.length_append]
    simp only [List.length_singleton]
    omega
  have hlen2 : ∀ (l : List (ℝ × List Landmark)) (a : ℝ × List Landmark),
      (lastN 14 l ++ [a]).length ≤ 15 := by
    intro l a
    have := lastN_length_le 14 l
    rw [List.length_append]
    simp only [List.length_singleton]
    omega
  have hhist : ∀ (gh : List String) (raw : String), gh.length ≤ 15 →
      (if 15 < (gh ++ [raw]).length then List.drop 1 (gh ++ [raw]) else gh ++ [raw]).length
        ≤ 15 := by
    intro gh raw hle
    by_cases hc : 15 < (gh ++ [raw]).length
    · rw [if_pos hc, List.length_drop, List.length_append]
      simp only [List.length_singleton]
      omega
    · rw [if_neg hc]
      omega
  unfold processHands
  split
  · exact ⟨h1, h2, h3⟩
  · split
    · exact ⟨h1, h2, h3⟩
    · dsimp only
      split
      · refine ⟨?_, hlen2 _ _, h3⟩
        split
        · split
          · exact h1
          · exact hlen _ _
        · exact h1
      · refine ⟨?_, hlen2 _ _, hhist _ _ h3⟩
        split
        · split
          · exact h1
          · exact hlen _ _
        · exact h1

lemma processHands_fifo (s : PipelineState) (lms nl : List Landmark) (now dn : ℝ)
    (hn : normalizeLandmarks lms = .ok nl) :
    (∀ (prev : List Landmark) (t : ℝ),
      s.motion.prevLandmarks = some prev → s.motion.prevTimestamp = some t → t ≠ 0 →
      (processHands s [lms] now dn).1.motion.velocities
        = lastN 15 (s.motion.velocities ++ [calculateVelocities prev nl ((now - t) / 1000)])) ∧
    ((processHands s [lms] now dn).1.motion.motionHistory
        = lastN 15 (s.motion.motionHistory ++ [(now, nl)])) ∧
    (s.gestureHistory.length ≤ 15 →
      (processHands s [lms] now dn).1.gestureHistory = s.gestureHistory ∨
      ∃ raw, (processHands s [lms] now dn).1.gestureHistory
        = lastN 15 (s.gestureHistory ++ [raw])) := by
  unfold processHands
  simp only [show (([lms] : List (List Landmark)))[0]? = some lms from rfl, hn]
  refine ⟨?_, ?_, ?_⟩
  · intro prev t hp ht htz
    simp only [hp, ht]
    rw [if_neg htz]
    rw [show lastN 15 (s.motion.velocities ++ [calculateVelocities prev nl ((now - t) / 1000)])
        = lastN 14 s.motion.velocities ++ [calculateVelocities prev nl ((now - t) / 1000)]
        from lastN_append_one 14 _ _]
    split
    · rfl
    · rfl
  · rw [show lastN 15 (s.motion.motionHistory ++ [(now, nl)])
        = lastN 14 s.motion.motionHistory ++ [(now, nl)] from lastN_append_one 14 _ _]
    split
    · split
      · split
        · rfl
        · rfl
      · rfl
    · split
      · split
        · rfl
        · rfl
      · rfl
  · intro hle
    split
    · exact Or.inl rfl
    · right
      rename_i raw heq
      refine ⟨raw, ?_⟩
      by_cases hc : 15 < (s.gestureHistory ++ [raw]).length
      · rw [if_pos hc]
        unfold lastN
        rw [show (s.gestureHistory ++ [raw]).length - 15 = 1 from by
          rw [List.length_append] at hc ⊢
          simp only [List.length_singleton] at hc ⊢
          omega]
      · rw [if_neg hc]
        rw [show lastN 15 (s.gestureHistory ++ [raw]) = s.gestureHistory ++ [raw]
          from lastN_of_le (by
            rw [List.length_append] at hc ⊢
            simp only [List.length_singleton] at hc ⊢
            omega)]

lemma runPipeline_bounds (frames : List (List (List Landmark) × ℝ × ℝ)) :
    ∀ s : PipelineState,
      s.motion.velocities.length ≤ 15 → s.motion.motionHistory.length ≤ 15 →
      s.gestureHistory.length ≤ 15 →
      (runPipeline s frames).motion.velocities.length ≤ 15 ∧
      (runPipeline s frames).motion.motionHistory.length ≤ 15 ∧
      (runPipeline s frames).gestureHistory.length ≤ 15 := by
  induction frames with
  | nil => exact fun s h1 h2 h3 => ⟨h1, h2, h3⟩
  | cons f rest ih =>
      intro s h1 h2 h3
      obtain ⟨g1, g2, g3⟩ := processHands_bounds s f.1 f.2.1 f.2.2 h1 h2 h3
      exact ih (processHands s f.1 f.2.1 f.2.2).1 g1 g2 g3

/-- C9: over every frame sequence the velocity buffer, the frame-history
buffer and the raw gesture-label history stay within capacity 15; and each
frame's update appends the new entry at the tail while evicting from the
front — the new buffer is exactly the last 15 entries of old-buffer ++ [new
entry], so arrival order is preserved and eviction is oldest-first. -/
theorem motion_buffers_bounded_fifo :
    (∀ frames : List (List (List Landmark) × ℝ × ℝ),
      (runPipeline initPipeline frames).motion.velocities.length ≤ 15 ∧
      (runPipeline initPipeline frames).motion.motionHistory.length ≤ 15 ∧
      (runPipeline initPipeline frames).gestureHistory.length ≤ 15) ∧
    (∀ (s : PipelineState) (lms nl prev : List Landmark) (now dn t : ℝ),
      normalizeLandmarks lms = .ok nl →
      s.motion.prevLandmarks = some prev → s.motion.prevTimestamp = some t → t ≠ 0 →
      (processHands s [lms] now dn).1.motion.velocities
        = lastN 15 (s.motion.velocities ++ [calculateVelocities prev nl ((now - t) / 1000)])) ∧
    (∀ (s : PipelineState) (lms nl : List Landmark) (now dn : ℝ),
      normalizeLandmarks lms = .ok nl →
      (processHands s [lms] now dn).1.motion.motionHistory
        = lastN 15 (s.motion.motionHistory ++ [(now, nl)])) ∧
    (∀ (s : PipelineState) (lms nl : List Landmark) (now dn : ℝ),
      normalizeLandmarks lms = .ok nl → s.gestureHistory.length ≤ 15 →
      (processHands s [lms] now dn).1.gestureHistory = s.gestureHistory ∨
      ∃ raw, (processHands s [lms] now dn).1.gestureHistory
        = lastN 15 (s.gestureHistory ++ [raw])) := by
  refine ⟨?_, ?_, ?_, ?_⟩
  · intro frames
    exact runPipeline_bounds frames initPipeline (by simp [initPipeline, initMotion])
      (by simp [initPipeline, initMotion]) (by simp [initPipeline])
  · intro s lms nl prev now dn t hn hp ht htz
    exact (processHands_fifo s lms nl now dn hn).1 prev t hp ht htz
  · intro s lms nl now dn hn
    exact (processHands_fifo s lms nl now dn hn).2.1
  · intro s lms nl now dn hn hle
    exact (processHands_fifo s lms nl now dn hn).2.2 hle

lemma normalize_sepFrame : normalizeLandmarks sepFrame = .ok sepFrame := by
  have hd1 : distance2D zeroLm oneLm = 1 := by
    unfold distance2D
    rw [show (zeroLm.x - oneLm.x) * (zeroLm.x - oneLm.x)
        + (zeroLm.y - oneLm.y) * (zeroLm.y - oneLm.y) = (1 : ℝ) by norm_num [zeroLm, oneLm]]
    exact Real.sqrt_one
  have h0 : normalizeLandmarks sepFrame = Except.ok (sepFrame.map fun p =>
      { p with
        x := (p.x - zeroLm.x) /
          (if distance2D zeroLm oneLm = 0 then 1 else distance2D zeroLm oneLm)
        y := (p.y - zeroLm.y) /
          (if distance2D zeroLm oneLm = 0 then 1 else distance2D zeroLm oneLm) }) := rfl
  rw [h0, hd1]
  norm_num [sepFrame, zeroLm, oneLm, Landmark.mk.injEq]

/-- A pipeline state with a previous frame and the timestamp 1 (C9 witness). -/
noncomputable def s9 : PipelineState :=
  { motion := { prevLandmarks := some sepFrame, prevTimestamp := some 1, velocities := []
                directions := [], motionHistory := [] }
    gestureHistory := [], lastGesture := ("", 0) }

/-- C9 witness: one concrete frame appended to the concrete state s9 updates
all three buffers as last-15-of-append. -/
theorem motion_buffers_bounded_fifo_witness :
    normalizeLandmarks sepFrame = .ok sepFrame ∧ (1 : ℝ) ≠ 0 ∧
    (processHands s9 [sepFrame] 2 3).1.motion.velocities
      = lastN 15 (s9.motion.velocities
          ++ [calculateVelocities sepFrame sepFrame ((2 - 1) / 1000)]) ∧
    (processHands s9 [sepFrame] 2 3).1.motion.motionHistory
      = lastN 15 (s9.motion.motionHistory ++ [((2 : ℝ), sepFrame)]) ∧
    ((processHands s9 [sepFrame] 2 3).1.gestureHistory = s9.gestureHistory ∨
      ∃ raw, (processHands s9 [sepFrame] 2 3).1.gestureHistory
        = lastN 15 (s9.gestureHistory ++ [raw])) := by
  refine ⟨normalize_sepFrame, by norm_num, ?_, ?_, ?_⟩
  · exact motion_buffers_bounded_fifo.2.1 s9 sepFrame sepFrame sepFrame 2 3 1
      normalize_sepFrame rfl rfl (by norm_num)
  · exact motion_buffers_bounded_fifo.2.2.1 s9 sepFrame sepFrame 2 3 normalize_sepFrame
  · exact motion_buffers_bounded_fifo.2.2.2 s9 sepFrame sepFrame 2 3 normalize_sepFrame
      (by simp [s9])
